import Mathlib

/-!
Shallow embedding of the screen-sharing SFU control plane:
the MediasoupService registry (src/backend/src/mediasoup/mediasoup.service.ts)
and the SignalingGateway request handlers (signaling.gateway.ts).

Conventions of the embedding:
- JS Maps become association lists (key-value pair lists); Map.set replaces in
  place or appends, Map.delete filters the key out, Set becomes a
  duplicate-free list with add-if-absent.
- Opaque mediasoup values (rtpParameters, dtlsParameters, rtpCapabilities)
  are modelled by presence flags only, since the embedded code never
  inspects them; the router canConsume verdict is carried in the request as
  a boolean oracle.
- Router-assigned ids (transport, producer, consumer ids) are drawn from a
  single fresh counter nextId; in the source they are opaque unique strings.
- Client-supplied strings where the source tests JS truthiness collapse
  undefined and the empty string into the empty string, since every code
  path treats them identically.
- Mediasoup event cascades run synchronously inside the closing operation:
  closing a transport deletes its producers and consumers (the registered
  transportclose handlers delete them from the maps), and closing a
  producer deletes its consumers (the producerclose handlers).  This
  matches the quiescent states the specification claims speak about.
- Each consumer carries a ghost field ownerClientId recording the owning
  client of its transport at creation time (mediasoup tracks the transport
  internally); the source consumer appData is empty, modelled by the
  always-none field appDataClientId that the cleanupClient loop tests.
-/

namespace SS

/-- Association list lookup: the value of the first pair with the given key,
mirroring JS Map.get. -/
def lookupA [DecidableEq α] (k : α) : List (α × β) → Option β
  | [] => none
  | kv :: rest => if kv.1 = k then some kv.2 else lookupA k rest

/-- Association list update: replace in place if the key is present,
append otherwise, mirroring JS Map.set. -/
def setA [DecidableEq α] (k : α) (v : β) : List (α × β) → List (α × β)
  | [] => [(k, v)]
  | kv :: rest => if kv.1 = k then (k, v) :: rest else kv :: setA k v rest

/-- Filter by a decidable proposition, keeping elements that satisfy it. -/
def filterP (p : α → Prop) [DecidablePred p] : List α → List α
  | [] => []
  | a :: l => if p a then a :: filterP p l else filterP p l

/-- Association list deletion, mirroring JS Map.delete. -/
def eraseA [DecidableEq α] (k : α) (l : List (α × β)) : List (α × β) :=
  filterP (fun kv => kv.1 ≠ k) l

/-- Transport direction, the source field TransportInfo.type. -/
inductive TType where
  | send
  | recv
deriving DecidableEq, Repr

/-- TransportInfo from mediasoup.service.ts: owning client, direction,
connected flag, the mediasoup transport closed flag, and creation time. -/
structure TransportInfo where
  clientId : String
  ttype : TType
  connected : Bool
  closed : Bool
  createdAt : Nat
deriving DecidableEq, Repr

/-- A registered producer.  transportId is the mediasoup-internal owning
transport; appDataClientId and appDataSource are the two appData keys the
service consults (appData is set to the spread of clientId with the request
appData in MediasoupService.produce). -/
structure Producer where
  transportId : Nat
  kind : String
  appDataClientId : String
  appDataSource : Option String
  closed : Bool
deriving DecidableEq, Repr

/-- A registered consumer.  ownerClientId is a ghost field: the clientId of
the owning transport at creation time.  appDataClientId models
consumer.appData.clientId, which the service never sets (consume passes no
appData), hence it is always none. -/
structure Consumer where
  transportId : Nat
  producerId : Nat
  kind : String
  paused : Bool
  ownerClientId : String
  appDataClientId : Option String
  closed : Bool
deriving DecidableEq, Repr

/-- Per-socket session state of the SignalingGateway (interface ClientInfo).
An empty clientId models the initial empty-string clientId set at
connection time. -/
structure ClientInfo where
  clientId : String
  roomId : Option String
  sendTransportId : Option Nat
  recvTransportId : Option Nat
deriving DecidableEq, Repr

/-- The producer view built by getProducerList and the newProducer
broadcast: clientId is the field named clientId in the payload,
appDataClientId and appDataSource are the appData echoed alongside. -/
structure PView where
  producerId : Nat
  kind : String
  clientId : String
  appDataClientId : String
  appDataSource : Option String
deriving DecidableEq, Repr

/-- Server-pushed events.  Broadcast events record the list of recipient
sockets computed at emission time (socket.io room membership, minus the
sender for client.to broadcasts). -/
inductive Ev where
  | existingProducers (sock : Nat) (payload : List PView)
  | clientJoined (recipients : List Nat) (clientId : String)
  | newProducer (recipients : List Nat) (view : PView)
  | producerClosed (recipients : List Nat) (producerId : Nat)
  | clientDisconnected (recipients : List Nat) (clientId : String)
deriving DecidableEq, Repr

/-- The appData object a produce request may carry; only the clientId and
source keys are ever consulted by the embedded code. -/
structure ReqAppData where
  clientId : Option String
  source : Option String
deriving DecidableEq, Repr

/-- A produce request body.  kind empty string models a missing kind;
rtpParameters is a presence flag. -/
structure ProduceReq where
  transportId : Option Nat
  kind : String
  rtpParameters : Bool
  appData : Option ReqAppData
deriving DecidableEq, Repr

/-- A consume request body.  rtpCapabilities is a presence flag and
canConsume carries the router.canConsume verdict for this request. -/
structure ConsumeReq where
  transportId : Option Nat
  producerId : Option Nat
  rtpCapabilities : Bool
  canConsume : Bool
deriving DecidableEq, Repr

/-- Request acks returned by the gateway handlers. -/
inductive Ack where
  | error (msg : String)
  | joined (producerCount : Nat)
  | transportOptions (id : Nat)
  | connected
  | closedShares (closedCount : Nat)
  | produced (producerId : Nat)
  | consumed (consumerId : Nat) (producerId : Nat) (kind : String)
deriving DecidableEq, Repr

/-- The whole server state: the MediasoupService maps (transports,
producers, consumers, clientTransports), the SignalingGateway maps
(clients, clientsByClientId), socket.io room membership, the emitted
event log, the fresh-id counter and the clock. -/
structure State where
  clients : List (Nat × ClientInfo)
  clientsByClientId : List (String × Nat)
  transports : List (Nat × TransportInfo)
  producers : List (Nat × Producer)
  consumers : List (Nat × Consumer)
  clientTransports : List (String × List Nat)
  rooms : List (String × List Nat)
  events : List Ev
  nextId : Nat
  now : Nat
deriving DecidableEq, Repr

/-- The transport-id set of a client, empty when absent. -/
def ctList (s : State) (c : String) : List Nat :=
  (lookupA c s.clientTransports).getD []

/-- socket.io membership of a room, empty when absent. -/
def roomMembers (s : State) (r : String) : List Nat :=
  (lookupA r s.rooms).getD []

/-- MediasoupService.createTransport: allocate a fresh transport for the
client, record it in transports and in the client index (Set.add), start
unconnected. -/
def svcCreateTransport (s : State) (clientId : String) (ttype : TType) :
    State × Nat :=
  let tid := s.nextId
  let info : TransportInfo :=
    { clientId := clientId, ttype := ttype, connected := false,
      closed := false, createdAt := s.now }
  let cts := ctList s clientId
  let cts2 := if tid ∈ cts then cts else cts ++ [tid]
  ({ s with transports := setA tid info s.transports,
            clientTransports := setA clientId cts2 s.clientTransports,
            nextId := s.nextId + 1 }, tid)

/-- MediasoupService.cleanupTransport: remove the transport from the client
index (deleting an emptied index entry), close the mediasoup transport and
delete it.  The mediasoup close cascade deletes the producers living on the
transport (their transportclose handlers), the consumers living on it
(transportclose), and the consumers of the deleted producers
(producerclose). -/
def cleanupTransport (s : State) (tid : Nat) : State :=
  match lookupA tid s.transports with
  | none => s
  | some info =>
    let cts2 := filterP (fun t => t ≠ tid) (ctList s info.clientId)
    let cmap :=
      if cts2 = [] then eraseA info.clientId s.clientTransports
      else setA info.clientId cts2 s.clientTransports
    let deadProds :=
      (filterP (fun pv => pv.2.transportId = tid) s.producers).map Prod.fst
    { s with
      transports := eraseA tid s.transports,
      clientTransports := cmap,
      producers := filterP (fun pv => pv.2.transportId ≠ tid) s.producers,
      consumers := filterP
        (fun cv => cv.2.transportId ≠ tid ∧ cv.2.producerId ∉ deadProds)
        s.consumers }

/-- MediasoupService.connectTransport: error when missing or closed,
otherwise mark connected. -/
def svcConnectTransport (s : State) (tid : Nat) : Except String State :=
  match lookupA tid s.transports with
  | none => .error "Transport not found"
  | some info =>
    if info.closed then .error "Transport is closed"
    else .ok { s with
      transports := setA tid { info with connected := true } s.transports }

/-- MediasoupService.produce: re-validate the transport (found, not closed,
connected, send side), validate the mediasoup media kind, then register a
producer whose appData is the spread of the caller clientId with the
request appData — a request clientId key overrides the caller. -/
def svcProduce (s : State) (transportId : Nat) (kind : String)
    (clientId : String) (appData : Option ReqAppData) :
    Except String (State × Nat) :=
  match lookupA transportId s.transports with
  | none => .error "Transport not found"
  | some info =>
    if info.closed then .error "Transport is closed"
    else if info.connected = false then .error "Transport is not connected"
    else if info.ttype ≠ TType.send then
      .error "Cannot produce on receive transport"
    else if kind ≠ "audio" ∧ kind ≠ "video" then .error "Invalid media kind"
    else
      let pid := s.nextId
      let p : Producer :=
        { transportId := transportId, kind := kind,
          appDataClientId := (appData.bind ReqAppData.clientId).getD clientId,
          appDataSource := appData.bind ReqAppData.source,
          closed := false }
      .ok ({ s with producers := setA pid p s.producers,
                    nextId := s.nextId + 1 }, pid)

/-- MediasoupService.consume: re-validate the transport (found, not closed,
connected, recv side), require the producer present and not closed and the
router canConsume verdict, then register an unpaused consumer. -/
def svcConsume (s : State) (transportId : Nat) (producerId : Nat)
    (canConsume : Bool) : Except String (State × Nat × String) :=
  match lookupA transportId s.transports with
  | none => .error "Transport not found"
  | some info =>
    if info.closed then .error "Transport is closed"
    else if info.connected = false then .error "Transport is not connected"
    else if info.ttype ≠ TType.recv then
      .error "Cannot consume on send transport"
    else
      match lookupA producerId s.producers with
      | none => .error "Producer not found"
      | some p =>
        if p.closed then .error "Producer is closed"
        else if canConsume = false then
          .error "Cannot consume - RTP capabilities not compatible"
        else
          let cid := s.nextId
          let c : Consumer :=
            { transportId := transportId, producerId := producerId,
              kind := p.kind, paused := false,
              ownerClientId := info.clientId, appDataClientId := none,
              closed := false }
          .ok ({ s with consumers := setA cid c s.consumers,
                        nextId := s.nextId + 1 }, cid, p.kind)

/-- The producer selection of MediasoupService.closeAllScreenShares:
appData.source is screen, kind is video, and the appData owner differs
from the excluded client. -/
def screenMatch (excl : String) (pv : Nat × Producer) : Prop :=
  pv.2.appDataSource = some "screen" ∧ pv.2.kind = "video" ∧
    pv.2.appDataClientId ≠ excl

instance (excl : String) : DecidablePred (screenMatch excl) := fun pv => by
  unfold screenMatch; infer_instance

/-- MediasoupService.closeAllScreenShares: close and delete every matching
producer over the whole producer map (all rooms), collecting the closed ids
in map order; the producer close cascade deletes their consumers. -/
def svcCloseAllScreenShares (s : State) (excl : String) :
    State × List Nat :=
  let ids := (filterP (screenMatch excl) s.producers).map Prod.fst
  ({ s with
      producers := filterP (fun pv => ¬ screenMatch excl pv) s.producers,
      consumers := filterP (fun cv => cv.2.producerId ∉ ids) s.consumers },
   ids)

/-- The view getProducerList builds for one producer map entry. -/
def viewOf (pv : Nat × Producer) : PView :=
  { producerId := pv.1, kind := pv.2.kind,
    clientId := pv.2.appDataClientId,
    appDataClientId := pv.2.appDataClientId,
    appDataSource := pv.2.appDataSource }

/-- MediasoupService.getProducerList: every producer whose appData clientId
differs from the given client and which is not closed, in map order. -/
def getProducerList (s : State) (clientId : String) : List PView :=
  (filterP (fun pv => pv.2.appDataClientId ≠ clientId ∧ pv.2.closed = false)
    s.producers).map viewOf

/-- MediasoupService.getClientTransports: the transport records of the
client index, dropping ids whose record is gone. -/
def getClientTransports (s : State) (c : String) :
    List (Nat × TransportInfo) :=
  (ctList s c).filterMap
    (fun t => (lookupA t s.transports).map (fun info => (t, info)))

/-- The room a client id currently occupies, resolved through the gateway
indexes (clientsByClientId then the session roomId).  Producers carry no
room in the source; per-room claims are read through the owner session. -/
def roomOfClient (s : State) (cid : String) : Option String :=
  match lookupA cid s.clientsByClientId with
  | none => none
  | some sock =>
    match lookupA sock s.clients with
    | none => none
    | some ci => ci.roomId

/-- MediasoupService.cleanupClient: close every transport of the client
(snapshotting the index), then close and delete every producer whose
appData clientId is the client (cascading to its consumers), then the
consumer loop testing consumer.appData.clientId (never set by consume,
hence a no-op on reachable states). -/
def cleanupClient (s : State) (clientId : String) : State :=
  let ts := ctList s clientId
  let s1 := ts.foldl cleanupTransport s
  let ownIds :=
    (filterP (fun pv => pv.2.appDataClientId = clientId) s1.producers).map
      Prod.fst
  let s2 := { s1 with
    producers := filterP (fun pv => pv.2.appDataClientId ≠ clientId)
      s1.producers,
    consumers := filterP (fun cv => cv.2.producerId ∉ ownIds) s1.consumers }
  { s2 with
    consumers := filterP (fun cv => cv.2.appDataClientId ≠ some clientId)
      s2.consumers }

/-- The unconnected-transport reaper callback installed by createTransport:
when the timer fires, clean the transport up only if it is still present
and unconnected. -/
def reaperFire (s : State) (tid : Nat) : State :=
  match lookupA tid s.transports with
  | some info => if info.connected = false then cleanupTransport s tid else s
  | none => s

/-- The setTimeout delay of the reaper in milliseconds: 30 minutes. -/
def reaperDelayMs : Nat := 30 * 60 * 1000

/-- SignalingGateway.handleConnection: record a fresh session with empty
clientId and no room. -/
def handleConnection (s : State) (sock : Nat) : State :=
  let ci : ClientInfo :=
    { clientId := "", roomId := none,
      sendTransportId := none, recvTransportId := none }
  { s with clients := setA sock ci s.clients }

/-- SignalingGateway.handleDisconnect: socket.io has already removed the
socket from its rooms; then clean the mediasoup resources of the client,
drop both gateway indexes, and broadcast clientDisconnected to the room
when the session had joined one. -/
def handleDisconnect (s : State) (sock : Nat) : State :=
  let s0 := { s with
    rooms := s.rooms.map (fun rv => (rv.1, filterP (fun m => m ≠ sock) rv.2)) }
  match lookupA sock s0.clients with
  | none => s0
  | some ci =>
    let s1 :=
      if ci.clientId ≠ "" then
        let sA := cleanupClient s0 ci.clientId
        { sA with clientsByClientId := eraseA ci.clientId sA.clientsByClientId }
      else s0
    let s2 := { s1 with clients := eraseA sock s1.clients }
    match ci.roomId with
    | some r =>
      if ci.clientId ≠ "" then
        { s2 with events := s2.events ++
            [Ev.clientDisconnected (roomMembers s2 r) ci.clientId] }
      else s2
    | none => s2

/-- SignalingGateway.handleJoinRoom: require both ids non-empty and the
session present; record clientId and roomId on the session, index the
clientId, join the socket.io room, emit existingProducers to the joiner
and clientJoined to the others, ack the producer count. -/
def handleJoinRoom (s : State) (sock : Nat) (roomId clientId : String) :
    State × Ack :=
  if roomId = "" ∨ clientId = "" then
    (s, .error "Room ID and Client ID are required")
  else
    match lookupA sock s.clients with
    | none => (s, .error "Client info not found")
    | some ci =>
      let ci2 := { ci with clientId := clientId, roomId := some roomId }
      let members := roomMembers s roomId
      let members2 := if sock ∈ members then members else members ++ [sock]
      let s1 := { s with
        clients := setA sock ci2 s.clients,
        clientsByClientId := setA clientId sock s.clientsByClientId,
        rooms := setA roomId members2 s.rooms }
      let prods := getProducerList s1 clientId
      let s2 := { s1 with events := s1.events ++
        [Ev.existingProducers sock prods,
         Ev.clientJoined (filterP (fun m => m ≠ sock) members2) clientId] }
      (s2, .joined prods.length)

/-- SignalingGateway.handleCreateTransport: require a session with a
non-empty clientId and a valid direction string, allocate the transport and
record its id on the session (overwriting any previous id of that
direction). -/
def handleCreateTransport (s : State) (sock : Nat) (ttypeStr : String) :
    State × Ack :=
  match lookupA sock s.clients with
  | none => (s, .error "Client not in room")
  | some ci =>
    if ci.clientId = "" then (s, .error "Client not in room")
    else if ttypeStr ≠ "send" ∧ ttypeStr ≠ "recv" then
      (s, .error "Invalid transport type")
    else
      let ttype := if ttypeStr = "send" then TType.send else TType.recv
      let res := svcCreateTransport s ci.clientId ttype
      let ci2 :=
        if ttype = TType.send then { ci with sendTransportId := some res.2 }
        else { ci with recvTransportId := some res.2 }
      ({ res.1 with clients := setA sock ci2 res.1.clients },
       .transportOptions res.2)

/-- SignalingGateway.handleConnectTransport: parameter presence first, then
the session, then the transport, then ownership, then the service connect
(whose failure is caught into an error ack). -/
def handleConnectTransport (s : State) (sock : Nat)
    (transportId : Option Nat) (dtls : Bool) : State × Ack :=
  match transportId with
  | none => (s, .error "Missing transport parameters")
  | some tid =>
    if dtls = false then (s, .error "Missing transport parameters")
    else
      match lookupA sock s.clients with
      | none => (s, .error "Client info not found")
      | some ci =>
        match lookupA tid s.transports with
        | none => (s, .error "Transport not found")
        | some info =>
          if info.clientId ≠ ci.clientId then
            (s, .error "Transport does not belong to this client")
          else
            match svcConnectTransport s tid with
            | .error e => (s, .error e)
            | .ok s1 => (s1, .connected)

/-- SignalingGateway.handleCloseAllScreenShares: require a session with a
non-empty clientId, run the service sweep, then broadcast producerClosed to
the caller room (server.to, no sender exclusion) once per closed id, and
ack the closed count. -/
def handleCloseAllScreenShares (s : State) (sock : Nat) : State × Ack :=
  match lookupA sock s.clients with
  | none => (s, .error "Client not in room")
  | some ci =>
    if ci.clientId = "" then (s, .error "Client not in room")
    else
      let res := svcCloseAllScreenShares s ci.clientId
      match ci.roomId with
      | some r =>
        let recips := roomMembers res.1 r
        let evs := res.1.events ++
          res.2.map (fun pid => Ev.producerClosed recips pid)
        ({ res.1 with events := evs }, .closedShares res.2.length)
      | none => (res.1, .closedShares res.2.length)

/-- SignalingGateway.handleProduce: session joined with a room, parameters
present, transport found, owned, send side, connected; then the service
produce, a newProducer broadcast to the room excluding the caller (with the
clientId field taken from the session and the appData from the stored
producer), and the producerId ack. -/
def handleProduce (s : State) (sock : Nat) (req : ProduceReq) :
    State × Ack :=
  match lookupA sock s.clients with
  | none => (s, .error "Client not in room")
  | some ci =>
    if ci.clientId = "" then (s, .error "Client not in room")
    else
      match ci.roomId with
      | none => (s, .error "Client not in room")
      | some room =>
        match req.transportId with
        | none => (s, .error "Missing producer parameters")
        | some tid =>
          if req.kind = "" ∨ req.rtpParameters = false then
            (s, .error "Missing producer parameters")
          else
            match lookupA tid s.transports with
            | none => (s, .error "Transport not found")
            | some info =>
              if info.clientId ≠ ci.clientId then
                (s, .error "Transport does not belong to this client")
              else if info.ttype ≠ TType.send then
                (s, .error "Cannot produce on receive transport")
              else if info.connected = false then
                (s, .error "Transport not connected")
              else
                match svcProduce s tid req.kind ci.clientId req.appData with
                | .error e => (s, .error e)
                | .ok (s1, pid) =>
                  let v : PView :=
                    { producerId := pid, kind := req.kind,
                      clientId := ci.clientId,
                      appDataClientId :=
                        (req.appData.bind ReqAppData.clientId).getD
                          ci.clientId,
                      appDataSource := req.appData.bind ReqAppData.source }
                  ({ s1 with events := s1.events ++
                      [Ev.newProducer
                        (filterP (fun m => m ≠ sock) (roomMembers s1 room))
                        v] },
                   .produced pid)

/-- SignalingGateway.handleConsume: session with non-empty clientId,
parameters present, transport found, owned, recv side, connected; then the
service consume and the {consumerId, producerId, kind} ack. -/
def handleConsume (s : State) (sock : Nat) (req : ConsumeReq) :
    State × Ack :=
  match lookupA sock s.clients with
  | none => (s, .error "Client not in room")
  | some ci =>
    if ci.clientId = "" then (s, .error "Client not in room")
    else
      match req.transportId with
      | none => (s, .error "Missing consumer parameters")
      | some tid =>
        match req.producerId with
        | none => (s, .error "Missing consumer parameters")
        | some pid =>
        if req.rtpCapabilities = false then
          (s, .error "Missing consumer parameters")
        else
          match lookupA tid s.transports with
          | none => (s, .error "Transport not found")
          | some info =>
            if info.clientId ≠ ci.clientId then
              (s, .error "Transport does not belong to this client")
            else if info.ttype ≠ TType.recv then
              (s, .error "Cannot consume on send transport")
            else if info.connected = false then
              (s, .error "Transport not connected")
            else
              match svcConsume s tid pid req.canConsume with
              | .error e => (s, .error e)
              | .ok (s1, cid, kind) => (s1, .consumed cid pid kind)

/-- The operations a trace may perform. -/
inductive Op where
  | connect (sock : Nat)
  | disconnect (sock : Nat)
  | joinRoom (sock : Nat) (roomId clientId : String)
  | createTransport (sock : Nat) (ttypeStr : String)
  | connectTransport (sock : Nat) (transportId : Option Nat) (dtls : Bool)
  | produce (sock : Nat) (req : ProduceReq)
  | consume (sock : Nat) (req : ConsumeReq)
  | closeAllScreenShares (sock : Nat)
  | timerFire (transportId : Nat)
deriving DecidableEq, Repr

/-- One operation applied to the state, discarding acks. -/
def step (s : State) : Op → State
  | .connect sock => handleConnection s sock
  | .disconnect sock => handleDisconnect s sock
  | .joinRoom sock r c => (handleJoinRoom s sock r c).1
  | .createTransport sock ty => (handleCreateTransport s sock ty).1
  | .connectTransport sock t d => (handleConnectTransport s sock t d).1
  | .produce sock req => (handleProduce s sock req).1
  | .consume sock req => (handleConsume s sock req).1
  | .closeAllScreenShares sock => (handleCloseAllScreenShares s sock).1
  | .timerFire t => reaperFire s t

/-- Run a trace of operations. -/
def run (s : State) (ops : List Op) : State := ops.foldl step s

/-- The empty server state at process start. -/
def init : State :=
  { clients := [], clientsByClientId := [], transports := [],
    producers := [], consumers := [], clientTransports := [], rooms := [],
    events := [], nextId := 0, now := 0 }

/-! ### Association list and filter toolkit -/

theorem mem_filterP {p : α → Prop} [DecidablePred p] {l : List α} {a : α} :
    a ∈ filterP p l ↔ a ∈ l ∧ p a := by
  induction l with
  | nil => simp [filterP]
  | cons b l ih =>
    by_cases h : p b
    · simp only [filterP, if_pos h, List.mem_cons, ih]
      constructor
      · rintro (rfl | ⟨h1, h2⟩)
        · exact ⟨Or.inl rfl, h⟩
        · exact ⟨Or.inr h1, h2⟩
      · rintro ⟨rfl | h1, h2⟩
        · exact Or.inl rfl
        · exact Or.inr ⟨h1, h2⟩
    · simp only [filterP, if_neg h, List.mem_cons, ih]
      constructor
      · rintro ⟨h1, h2⟩
        exact ⟨Or.inr h1, h2⟩
      · rintro ⟨rfl | h1, h2⟩
        · exact absurd h2 h
        · exact ⟨h1, h2⟩

theorem filterP_subset {p : α → Prop} [DecidablePred p] {l : List α} {a : α}
    (h : a ∈ filterP p l) : a ∈ l := (mem_filterP.1 h).1

theorem filterP_prop {p : α → Prop} [DecidablePred p] {l : List α} {a : α}
    (h : a ∈ filterP p l) : p a := (mem_filterP.1 h).2

theorem filterP_eq_self {p : α → Prop} [DecidablePred p] {l : List α}
    (h : ∀ a ∈ l, p a) : filterP p l = l := by
  induction l with
  | nil => rfl
  | cons b l ih =>
    have hb : p b := h b (List.mem_cons_self b l)
    simp [filterP, hb, ih fun a ha => h a (List.mem_cons_of_mem b ha)]

theorem filterP_eq_nil {p : α → Prop} [DecidablePred p] {l : List α}
    (h : ∀ a ∈ l, ¬ p a) : filterP p l = [] := by
  induction l with
  | nil => rfl
  | cons b l ih =>
    have hb : ¬ p b := h b (List.mem_cons_self b l)
    simp [filterP, hb, ih fun a ha => h a (List.mem_cons_of_mem b ha)]

theorem nodup_filterP (p : α → Prop) [DecidablePred p] {l : List α}
    (h : l.Nodup) : (filterP p l).Nodup := by
  induction l with
  | nil => exact h
  | cons b l ih =>
    rcases List.nodup_cons.1 h with ⟨hb, hl⟩
    by_cases hp : p b
    · rw [show filterP p (b :: l) = b :: filterP p l from by
        simp [filterP, hp]]
      exact List.nodup_cons.2 ⟨fun hm => hb (filterP_subset hm), ih hl⟩
    · rw [show filterP p (b :: l) = filterP p l from by simp [filterP, hp]]
      exact ih hl

theorem lookupA_setA_self [DecidableEq α] (k : α) (v : β)
    (l : List (α × β)) : lookupA k (setA k v l) = some v := by
  induction l with
  | nil => simp [setA, lookupA]
  | cons kv l ih =>
    by_cases h : kv.1 = k <;> simp [setA, lookupA, h, ih]

theorem lookupA_setA_ne [DecidableEq α] {k k' : α} (v : β)
    (l : List (α × β)) (h : k' ≠ k) :
    lookupA k' (setA k v l) = lookupA k' l := by
  induction l with
  | nil => simp [setA, lookupA, Ne.symm h]
  | cons kv l ih =>
    by_cases hk : kv.1 = k
    · simp [setA, lookupA, hk, Ne.symm h]
    · simp [setA, lookupA, hk, ih]

theorem lookupA_eq_none_iff [DecidableEq α] {k : α} {l : List (α × β)} :
    lookupA k l = none ↔ ∀ kv ∈ l, kv.1 ≠ k := by
  induction l with
  | nil => simp [lookupA]
  | cons kv l ih =>
    by_cases h : kv.1 = k <;> simp [lookupA, h, ih]

theorem mem_eraseA [DecidableEq α] {k : α} {kv : α × β} {l : List (α × β)} :
    kv ∈ eraseA k l ↔ kv ∈ l ∧ kv.1 ≠ k := mem_filterP

theorem lookupA_eraseA_self [DecidableEq α] (k : α) (l : List (α × β)) :
    lookupA k (eraseA k l) = none := by
  rw [lookupA_eq_none_iff]
  intro kv hm
  exact (mem_eraseA.1 hm).2

theorem lookupA_filterP_of_key [DecidableEq α] {k : α} {p : α × β → Prop}
    [DecidablePred p] (hp : ∀ v : β, p (k, v)) (l : List (α × β)) :
    lookupA k (filterP p l) = lookupA k l := by
  induction l with
  | nil => rfl
  | cons kv l ih =>
    by_cases hk : kv.1 = k
    · have h2 : p kv := by
        have h3 := hp kv.2
        rw [← hk] at h3
        exact h3
      simp [filterP, h2, lookupA, hk]
    · by_cases hpk : p kv
      · simp [filterP, hpk, lookupA, hk, ih]
      · simp [filterP, hpk, lookupA, hk, ih]

theorem lookupA_eraseA_ne [DecidableEq α] {k k' : α} (l : List (α × β))
    (h : k' ≠ k) : lookupA k' (eraseA k l) = lookupA k' l :=
  lookupA_filterP_of_key (fun _ => h) l

theorem lookupA_mem [DecidableEq α] {k : α} {v : β} {l : List (α × β)}
    (h : lookupA k l = some v) : (k, v) ∈ l := by
  induction l with
  | nil => simp [lookupA] at h
  | cons kv l ih =>
    by_cases hk : kv.1 = k
    · simp only [lookupA, if_pos hk] at h
      have h2 : kv = (k, v) := by
        cases h
        rw [← hk]
      rw [← h2]
      exact List.mem_cons_self kv l
    · simp only [lookupA, if_neg hk] at h
      exact List.mem_cons_of_mem kv (ih h)

theorem mem_setA [DecidableEq α] {k : α} {v : β} {kv : α × β}
    {l : List (α × β)} (h : kv ∈ setA k v l) : kv = (k, v) ∨ kv ∈ l := by
  induction l with
  | nil => simpa [setA] using h
  | cons kv0 l ih =>
    by_cases hk : kv0.1 = k
    · rw [show setA k v (kv0 :: l) = (k, v) :: l from by simp [setA, hk]]
        at h
      rcases List.mem_cons.1 h with h | h
      · exact Or.inl h
      · exact Or.inr (List.mem_cons_of_mem kv0 h)
    · rw [show setA k v (kv0 :: l) = kv0 :: setA k v l from by
        simp [setA, hk]] at h
      rcases List.mem_cons.1 h with h | h
      · exact Or.inr (h ▸ List.mem_cons_self kv0 l)
      · rcases ih h with h | h
        · exact Or.inl h
        · exact Or.inr (List.mem_cons_of_mem kv0 h)

/-! ### Operation-level helper lemmas -/

theorem cleanupTransport_of_lookup (s : State) (tid : Nat)
    (info : TransportInfo) (ht : lookupA tid s.transports = some info) :
    cleanupTransport s tid = { s with
      transports := eraseA tid s.transports,
      clientTransports :=
        if filterP (fun t => t ≠ tid) (ctList s info.clientId) = []
        then eraseA info.clientId s.clientTransports
        else setA info.clientId
          (filterP (fun t => t ≠ tid) (ctList s info.clientId))
          s.clientTransports,
      producers := filterP (fun pv => pv.2.transportId ≠ tid) s.producers,
      consumers := filterP (fun cv => cv.2.transportId ≠ tid ∧
        cv.2.producerId ∉
          (filterP (fun pv => pv.2.transportId = tid) s.producers).map
            Prod.fst) s.consumers } := by
  unfold cleanupTransport
  rw [ht]

theorem cleanupTransport_not_found (s : State) (tid : Nat)
    (ht : lookupA tid s.transports = none) : cleanupTransport s tid = s := by
  unfold cleanupTransport
  rw [ht]

theorem ctList_cleanupTransport_owner (s : State) (tid : Nat)
    (info : TransportInfo) (ht : lookupA tid s.transports = some info) :
    ctList (cleanupTransport s tid) info.clientId =
      filterP (fun t => t ≠ tid) (ctList s info.clientId) := by
  rw [cleanupTransport_of_lookup s tid info ht]
  show (lookupA info.clientId
    (if filterP (fun t => t ≠ tid) (ctList s info.clientId) = []
     then eraseA info.clientId s.clientTransports
     else setA info.clientId
       (filterP (fun t => t ≠ tid) (ctList s info.clientId))
       s.clientTransports)).getD [] = _
  by_cases hnil : filterP (fun t => t ≠ tid) (ctList s info.clientId) = []
  · rw [if_pos hnil, lookupA_eraseA_self, hnil]
    rfl
  · rw [if_neg hnil, lookupA_setA_self]
    rfl

theorem ctList_cleanupTransport_other (s : State) (tid : Nat)
    (info : TransportInfo) (ht : lookupA tid s.transports = some info)
    (c : String) (hc : c ≠ info.clientId) :
    ctList (cleanupTransport s tid) c = ctList s c := by
  rw [cleanupTransport_of_lookup s tid info ht]
  show (lookupA c
    (if filterP (fun t => t ≠ tid) (ctList s info.clientId) = []
     then eraseA info.clientId s.clientTransports
     else setA info.clientId
       (filterP (fun t => t ≠ tid) (ctList s info.clientId))
       s.clientTransports)).getD [] = _
  by_cases hnil : filterP (fun t => t ≠ tid) (ctList s info.clientId) = []
  · rw [if_pos hnil, lookupA_eraseA_ne _ hc]
    rfl
  · rw [if_neg hnil, lookupA_setA_ne _ _ hc]
    rfl

theorem self_mem_setA [DecidableEq α] (k : α) (v : β) (l : List (α × β)) :
    (k, v) ∈ setA k v l := by
  induction l with
  | nil => simp [setA]
  | cons kv l ih =>
    by_cases hk : kv.1 = k
    · simp [setA, hk]
    · rw [show setA k v (kv :: l) = kv :: setA k v l from by simp [setA, hk]]
      exact List.mem_cons_of_mem kv ih

theorem producers_cleanupTransport_subset {s : State} {tid : Nat}
    {pv : Nat × Producer} (h : pv ∈ (cleanupTransport s tid).producers) :
    pv ∈ s.producers := by
  unfold cleanupTransport at h
  cases hl : lookupA tid s.transports with
  | none => rw [hl] at h; exact h
  | some info => rw [hl] at h; exact filterP_subset h

theorem producers_foldl_cleanup_subset (ts : List Nat) :
    ∀ (s : State) (pv : Nat × Producer),
      pv ∈ (ts.foldl cleanupTransport s).producers → pv ∈ s.producers := by
  induction ts with
  | nil => intro s pv h; exact h
  | cons t ts ih =>
    intro s pv h
    exact producers_cleanupTransport_subset (ih (cleanupTransport s t) pv h)

/-- The success path of handleProduce, characterized once: the producer is
registered under the fresh id with appData the spread of the session
clientId with the request appData, a newProducer event goes to the room
minus the caller, and the ack carries the fresh producer id. -/
theorem handleProduce_success (s : State) (sock : Nat) (req : ProduceReq)
    (ci : ClientInfo) (tid : Nat) (info : TransportInfo) (r : String)
    (hci : lookupA sock s.clients = some ci) (hcid : ci.clientId ≠ "")
    (hr : ci.roomId = some r) (htid : req.transportId = some tid)
    (hkind : req.kind ≠ "") (hrtp : req.rtpParameters = true)
    (hti : lookupA tid s.transports = some info)
    (hown : info.clientId = ci.clientId) (hdir : info.ttype = TType.send)
    (hconn : info.connected = true) (hncl : info.closed = false)
    (hkv : req.kind = "audio" ∨ req.kind = "video") :
    handleProduce s sock req =
      ({ s with
          producers := setA s.nextId
            { transportId := tid, kind := req.kind,
              appDataClientId :=
                (req.appData.bind ReqAppData.clientId).getD ci.clientId,
              appDataSource := req.appData.bind ReqAppData.source,
              closed := false } s.producers,
          nextId := s.nextId + 1,
          events := s.events ++ [Ev.newProducer
            (filterP (fun m => m ≠ sock) (roomMembers s r))
            { producerId := s.nextId, kind := req.kind,
              clientId := ci.clientId,
              appDataClientId :=
                (req.appData.bind ReqAppData.clientId).getD ci.clientId,
              appDataSource := req.appData.bind ReqAppData.source }] },
       Ack.produced s.nextId) := by
  have hkindok : ¬ (req.kind ≠ "audio" ∧ req.kind ≠ "video") := by
    rcases hkv with h | h <;> simp [h]
  unfold handleProduce svcProduce
  rw [hci]
  simp [hcid, hr, htid, hkind, hrtp, hti, hown, hdir, hconn, hncl, hkindok]
  rfl

/-! ### Claim theorems -/

/-- C3: the producer list delivered at join (existingProducers, with the
producer count echoed in the joinRoom ack) contains exactly the producers
that are non-closed and whose owner client-id differs from the joiner at
the moment of join, each reported through the view of viewOf (producerId,
kind, clientId, appData source); the joiner's own producers and closed
producers are excluded. -/
theorem c3_joinRoom_existing_producers (s : State) (sock : Nat)
    (r cid : String) (ci : ClientInfo)
    (hr : r ≠ "") (hc : cid ≠ "")
    (hci : lookupA sock s.clients = some ci) :
    (handleJoinRoom s sock r cid).2 =
      Ack.joined (getProducerList s cid).length ∧
    (∃ recips, (handleJoinRoom s sock r cid).1.events =
      s.events ++ [Ev.existingProducers sock (getProducerList s cid),
                   Ev.clientJoined recips cid]) ∧
    (∀ v, v ∈ getProducerList s cid ↔
      ∃ pv, pv ∈ s.producers ∧ pv.2.appDataClientId ≠ cid ∧
        pv.2.closed = false ∧ v = viewOf pv) := by
  refine ⟨?_, ?_, ?_⟩
  · simp [handleJoinRoom, hr, hc, hci, getProducerList]
  · refine ⟨filterP (fun m => m ≠ sock)
      (if sock ∈ roomMembers s r then roomMembers s r
       else roomMembers s r ++ [sock]), ?_⟩
    simp [handleJoinRoom, hr, hc, hci, getProducerList]
  · intro v
    constructor
    · intro hv
      rcases List.mem_map.1 hv with ⟨pv, hpv, hveq⟩
      rcases mem_filterP.1 hpv with ⟨h1, h2, h3⟩
      exact ⟨pv, h1, h2, h3, hveq.symm⟩
    · rintro ⟨pv, h1, h2, h3, rfl⟩
      exact List.mem_map_of_mem _ (mem_filterP.2 ⟨h1, h2, h3⟩)

/-- C4: when the caller session owns the named transport, that transport is
a connected, non-closed recv transport, the named producer exists and is
not closed, and the router canConsume verdict is positive, consume acks
{consumerId, producerId, kind} with the requested producerId and registers
a consumer created with paused = false. -/
theorem c4_consume_success (s : State) (sock : Nat) (req : ConsumeReq)
    (ci : ClientInfo) (tid pid : Nat) (info : TransportInfo) (p : Producer)
    (hci : lookupA sock s.clients = some ci) (hcid : ci.clientId ≠ "")
    (ht : req.transportId = some tid) (hp : req.producerId = some pid)
    (hcaps : req.rtpCapabilities = true) (hcc : req.canConsume = true)
    (hti : lookupA tid s.transports = some info)
    (hown : info.clientId = ci.clientId) (hdir : info.ttype = TType.recv)
    (hconn : info.connected = true) (hncl : info.closed = false)
    (hpi : lookupA pid s.producers = some p) (hpcl : p.closed = false) :
    (handleConsume s sock req).2 = Ack.consumed s.nextId pid p.kind ∧
    lookupA s.nextId (handleConsume s sock req).1.consumers =
      some { transportId := tid, producerId := pid, kind := p.kind,
             paused := false, ownerClientId := info.clientId,
             appDataClientId := none, closed := false } := by
  unfold handleConsume svcConsume
  rw [hci, ht, hp]
  simp [hcid, hcaps, hcc, hti, hown, hdir, hconn, hncl, hpi, hpcl,
    lookupA_setA_self]

/-- Trace for the C6 counterexample: a joined client creates a send
transport and then asks for a second send transport. -/
def c6trace : List Op :=
  [.connect 0, .joinRoom 0 "r" "A", .createTransport 0 "send"]

/-- C6 counterexample: the second same-direction createTransport from the
same session does not ack an error — it acks transportOptions for a fresh
transport — and afterwards the registry holds two send transports owned by
the session's client, refuting both the claimed error and the claimed
at-most-one-per-direction invariant. -/
theorem c6_counterexample :
    (handleCreateTransport (run init c6trace) 0 "send").2 =
      Ack.transportOptions 1 ∧
    (filterP (fun tv : Nat × TransportInfo =>
        tv.2.clientId = "A" ∧ tv.2.ttype = TType.send)
      (handleCreateTransport (run init c6trace) 0 "send").1.transports).length
      = 2 := by
  constructor <;> rfl

/-- C6 amended: handleCreateTransport requires only a session with a
non-empty clientId and a valid direction; it never checks for an existing
transport of that direction.  Any such request succeeds, allocates a fresh
transport, and overwrites the direction's recorded id on the session, so a
session can come to own several transports of the same direction. -/
theorem c6_createTransport_no_direction_limit (s : State) (sock : Nat)
    (ci : ClientInfo) (hci : lookupA sock s.clients = some ci)
    (hcid : ci.clientId ≠ "") :
    (handleCreateTransport s sock "send").2 =
      Ack.transportOptions s.nextId ∧
    lookupA s.nextId (handleCreateTransport s sock "send").1.transports =
      some { clientId := ci.clientId, ttype := TType.send,
             connected := false, closed := false, createdAt := s.now } ∧
    lookupA sock (handleCreateTransport s sock "send").1.clients =
      some { ci with sendTransportId := some s.nextId } ∧
    (handleCreateTransport s sock "recv").2 =
      Ack.transportOptions s.nextId ∧
    lookupA sock (handleCreateTransport s sock "recv").1.clients =
      some { ci with recvTransportId := some s.nextId } := by
  unfold handleCreateTransport svcCreateTransport
  rw [hci]
  simp [hcid, lookupA_setA_self]

/-- C6 amended witness at a concrete joined session. -/
theorem c6_witness :
    (handleCreateTransport (run init c6trace) 0 "send").2 =
      Ack.transportOptions (run init c6trace).nextId :=
  (c6_createTransport_no_direction_limit (run init c6trace) 0
    { clientId := "A", roomId := some "r", sendTransportId := some 0,
      recvTransportId := none } rfl (by decide)).1

/-- C8: closeAllScreenShares is idempotent per caller: run once from a
joined session, an immediately repeated call from the same session changes
nothing at all (producers, consumers, events — hence no producerClosed
broadcast) and acks closedCount = 0. -/
theorem c8_closeAllScreenShares_idempotent (s : State) (sock : Nat)
    (ci : ClientInfo) (hci : lookupA sock s.clients = some ci)
    (hcid : ci.clientId ≠ "") (s1 : State)
    (hs1 : s1 = (handleCloseAllScreenShares s sock).1) :
    handleCloseAllScreenShares s1 sock = (s1, Ack.closedShares 0) := by
  have hclients : s1.clients = s.clients := by
    subst hs1
    unfold handleCloseAllScreenShares svcCloseAllScreenShares
    rw [hci]
    cases hrm : ci.roomId <;> simp [hcid, hrm]
  have hprod : s1.producers =
      filterP (fun pv => ¬ screenMatch ci.clientId pv) s.producers := by
    subst hs1
    unfold handleCloseAllScreenShares svcCloseAllScreenShares
    rw [hci]
    cases hrm : ci.roomId <;> simp [hcid, hrm]
  have hids : filterP (screenMatch ci.clientId) s1.producers = [] := by
    rw [hprod]
    exact filterP_eq_nil fun pv hm => (mem_filterP.1 hm).2
  have hkeep : filterP (fun pv => ¬ screenMatch ci.clientId pv) s1.producers
      = s1.producers := by
    rw [hprod]
    exact filterP_eq_self fun pv hm => (mem_filterP.1 hm).2
  have hci1 : lookupA sock s1.clients = some ci := by rw [hclients]; exact hci
  unfold handleCloseAllScreenShares svcCloseAllScreenShares
  rw [hci1]
  cases hrm : ci.roomId <;> simp [hcid, hrm, hids, hkeep, filterP_eq_self]

/-- Trace for the C8 witness: a single joined client. -/
def c8trace : List Op := [.connect 0, .joinRoom 0 "r" "A"]

/-- C8 witness: a concrete joined session, repeated call a no-op. -/
theorem c8_witness :
    handleCloseAllScreenShares
      (handleCloseAllScreenShares (run init c8trace) 0).1 0 =
    ((handleCloseAllScreenShares (run init c8trace) 0).1,
      Ack.closedShares 0) :=
  c8_closeAllScreenShares_idempotent (run init c8trace) 0
    { clientId := "A", roomId := some "r", sendTransportId := none,
      recvTransportId := none } rfl (by decide) _ rfl

/-- Trace for the C2 counterexample, stopping just before the decisive
call: A joins room r1; B joins room r2, produces a screen video producer
(id 1); D joins r1 and produces a screen audio producer (id 3). -/
def c2preTrace : List Op :=
  [.connect 0, .joinRoom 0 "r1" "A",
   .connect 1, .joinRoom 1 "r2" "B",
   .createTransport 1 "send", .connectTransport 1 (some 0) true,
   .produce 1 { transportId := some 0, kind := "video",
                rtpParameters := true,
                appData := some { clientId := none,
                                  source := some "screen" } },
   .connect 2, .joinRoom 2 "r1" "D",
   .createTransport 2 "send", .connectTransport 2 (some 2) true,
   .produce 2 { transportId := some 2, kind := "audio",
                rtpParameters := true,
                appData := some { clientId := none,
                                  source := some "screen" } }]

/-- C2 counterexample: caller A is in room r1.  Producer 1 is a screen
producer of B, who is in room r2 — outside the caller's room — yet A's
closeAllScreenShares closes it.  Producer 3 is a screen (audio) producer
of D, who shares room r1 with A — inside the caller's room with owner
different from A — yet it is left open because the sweep also requires
kind video.  So the call does not close exactly the screen producers of
the caller's room owned by others, refuting the claim. -/
theorem c2_counterexample :
    roomOfClient (run init c2preTrace) "A" = some "r1" ∧
    roomOfClient (run init c2preTrace) "B" = some "r2" ∧
    roomOfClient (run init c2preTrace) "D" = some "r1" ∧
    lookupA 1 (run init c2preTrace).producers =
      some { transportId := 0, kind := "video", appDataClientId := "B",
             appDataSource := some "screen", closed := false } ∧
    lookupA 3 (run init c2preTrace).producers =
      some { transportId := 2, kind := "audio", appDataClientId := "D",
             appDataSource := some "screen", closed := false } ∧
    (handleCloseAllScreenShares (run init c2preTrace) 0).2 =
      Ack.closedShares 1 ∧
    lookupA 1
      (handleCloseAllScreenShares (run init c2preTrace) 0).1.producers =
      none ∧
    lookupA 3
      (handleCloseAllScreenShares (run init c2preTrace) 0).1.producers =
      some { transportId := 2, kind := "audio", appDataClientId := "D",
             appDataSource := some "screen", closed := false } := by
  refine ⟨rfl, rfl, rfl, rfl, rfl, ?_, ?_, ?_⟩ <;> rfl

/-- C2 amended: closeAllScreenShares from a joined client C closes exactly
the non-closed producers with appData.source = screen, kind = video, and
owner different from C across the whole producer registry (all rooms, not
only C's), removes each from the registry (cascading to their consumers),
broadcasts producerClosed once per closed producer to C's room, and acks
closedCount equal to the number closed; producers owned by C, producers
with kind audio, and everything else are left unchanged. -/
theorem c2_closeAllScreenShares_global (s : State) (sock : Nat)
    (ci : ClientInfo) (r : String)
    (hci : lookupA sock s.clients = some ci) (hcid : ci.clientId ≠ "")
    (hroom : ci.roomId = some r) :
    (handleCloseAllScreenShares s sock).2 =
      Ack.closedShares
        ((filterP (screenMatch ci.clientId) s.producers).map
          Prod.fst).length ∧
    (handleCloseAllScreenShares s sock).1.producers =
      filterP (fun pv => ¬ screenMatch ci.clientId pv) s.producers ∧
    (handleCloseAllScreenShares s sock).1.events =
      s.events ++
        ((filterP (screenMatch ci.clientId) s.producers).map Prod.fst).map
          (fun pid => Ev.producerClosed (roomMembers s r) pid) ∧
    (handleCloseAllScreenShares s sock).1.consumers =
      filterP (fun cv => cv.2.producerId ∉
        (filterP (screenMatch ci.clientId) s.producers).map Prod.fst)
        s.consumers ∧
    (handleCloseAllScreenShares s sock).1.transports = s.transports ∧
    (handleCloseAllScreenShares s sock).1.clients = s.clients ∧
    (handleCloseAllScreenShares s sock).1.clientTransports =
      s.clientTransports ∧
    (handleCloseAllScreenShares s sock).1.rooms = s.rooms := by
  unfold handleCloseAllScreenShares svcCloseAllScreenShares
  rw [hci]
  simp [hcid, hroom, roomMembers, Function.comp_def]

/-- C2 amended witness at the counterexample state. -/
theorem c2_witness :
    (handleCloseAllScreenShares (run init c2preTrace) 0).2 =
      Ack.closedShares
        ((filterP (screenMatch "A") (run init c2preTrace).producers).map
          Prod.fst).length :=
  (c2_closeAllScreenShares_global (run init c2preTrace) 0
    { clientId := "A", roomId := some "r1", sendTransportId := none,
      recvTransportId := none } "r1" rfl (by decide) rfl).1

/-- The session record of the C9 witness state. -/
def c9wCi : ClientInfo :=
  { clientId := "A", roomId := some "r", sendTransportId := some 0,
    recvTransportId := none }

/-- The unconnected transport record of the C9 witness state. -/
def c9wTi : TransportInfo :=
  { clientId := "A", ttype := TType.send, connected := false,
    closed := false, createdAt := 0 }

/-- C9 witness machinery: a session with one unconnected send transport,
id 0. -/
def c9wState : State :=
  { clients := [(0, c9wCi)], clientsByClientId := [("A", 0)],
    transports := [(0, c9wTi)], producers := [], consumers := [],
    clientTransports := [("A", [0])], rooms := [("r", [0])],
    events := [], nextId := 1, now := 0 }

/-- C9: the reaper timer installed at creation fires after reaperDelayMs
(30 minutes).  A transport still unconnected when it fires is closed and
removed from the transport table and from the owning client's index; a
transport that connected first is left completely unchanged; and a
subsequent produce naming a reaped transport acks the transport-not-found
error. -/
theorem c9_reaper :
    reaperDelayMs = 1800000 ∧
    (∀ s tid info, lookupA tid s.transports = some info →
      info.connected = false →
      lookupA tid (reaperFire s tid).transports = none ∧
      tid ∉ ctList (reaperFire s tid) info.clientId) ∧
    (∀ s tid info, lookupA tid s.transports = some info →
      info.connected = true → reaperFire s tid = s) ∧
    (∀ s sock req ci tid, lookupA sock s.clients = some ci →
      ci.clientId ≠ "" → (∃ r, ci.roomId = some r) →
      req.transportId = some tid → req.kind ≠ "" →
      req.rtpParameters = true → lookupA tid s.transports = none →
      handleProduce s sock req = (s, Ack.error "Transport not found")) := by
  refine ⟨rfl, ?_, ?_, ?_⟩
  · intro s tid info ht hconn
    have hred : reaperFire s tid = cleanupTransport s tid := by
      unfold reaperFire
      rw [ht]
      simp [hconn]
    rw [hred]
    constructor
    · rw [cleanupTransport_of_lookup s tid info ht]
      exact lookupA_eraseA_self tid s.transports
    · rw [ctList_cleanupTransport_owner s tid info ht]
      intro hmem
      exact (mem_filterP.1 hmem).2 rfl
  · intro s tid info ht hconn
    unfold reaperFire
    rw [ht]
    simp [hconn]
  · intro s sock req ci tid hci hcid hroom htid hkind hrtp hlook
    rcases hroom with ⟨r, hr⟩
    unfold handleProduce
    rw [hci]
    simp [hr, htid, hlook, hcid, hkind, hrtp]

/-- C9 witness: reap the concrete unconnected transport, then produce on
it. -/
theorem c9_witness :
    lookupA 0 (reaperFire c9wState 0).transports = none ∧
    0 ∉ ctList (reaperFire c9wState 0) "A" ∧
    handleProduce (reaperFire c9wState 0) 0
      { transportId := some 0, kind := "video", rtpParameters := true,
        appData := none } =
      (reaperFire c9wState 0, Ack.error "Transport not found") := by
  have h2 := c9_reaper.2.1 c9wState 0
    { clientId := "A", ttype := TType.send, connected := false,
      closed := false, createdAt := 0 } rfl rfl
  refine ⟨h2.1, h2.2, ?_⟩
  exact c9_reaper.2.2.2 (reaperFire c9wState 0) 0
    { transportId := some 0, kind := "video", rtpParameters := true,
      appData := none }
    { clientId := "A", roomId := some "r", sendTransportId := some 0,
      recvTransportId := none } 0 rfl (by decide) ⟨"r", rfl⟩ rfl
    (by decide) rfl h2.1

/-- C10: a successful produce stores appData as the spread of
{clientId: caller} with the request appData, request keys taking
precedence: without a request clientId key the stored owner is the session
client-id, and a request clientId key overrides it; the stored value is
what ownership-based filtering (getProducerList) consults, and
cleanupClient of the stored owner removes the producer. -/
theorem c10_appdata_merge (s : State) (sock : Nat) (req : ProduceReq)
    (ci : ClientInfo) (tid : Nat) (info : TransportInfo) (r : String)
    (o : String) (P : Producer)
    (hci : lookupA sock s.clients = some ci) (hcid : ci.clientId ≠ "")
    (hr : ci.roomId = some r) (htid : req.transportId = some tid)
    (hkind : req.kind ≠ "") (hrtp : req.rtpParameters = true)
    (hti : lookupA tid s.transports = some info)
    (hown : info.clientId = ci.clientId) (hdir : info.ttype = TType.send)
    (hconn : info.connected = true) (hncl : info.closed = false)
    (hkv : req.kind = "audio" ∨ req.kind = "video")
    (hfresh : lookupA s.nextId s.producers = none)
    (ho : o = (req.appData.bind ReqAppData.clientId).getD ci.clientId)
    (hP : P = { transportId := tid, kind := req.kind,
                appDataClientId := o,
                appDataSource := req.appData.bind ReqAppData.source,
                closed := false }) :
    (handleProduce s sock req).2 = Ack.produced s.nextId ∧
    lookupA s.nextId (handleProduce s sock req).1.producers = some P ∧
    (req.appData.bind ReqAppData.clientId = none → o = ci.clientId) ∧
    (∀ oc, req.appData.bind ReqAppData.clientId = some oc → o = oc) ∧
    (∀ X, viewOf (s.nextId, P) ∈
        getProducerList (handleProduce s sock req).1 X ↔ X ≠ o) ∧
    lookupA s.nextId
      (cleanupClient (handleProduce s sock req).1 o).producers = none := by
  have hsucc := handleProduce_success s sock req ci tid info r hci hcid hr
    htid hkind hrtp hti hown hdir hconn hncl hkv
  have hprod : (handleProduce s sock req).1.producers =
      setA s.nextId P s.producers := by
    rw [hsucc, hP, ho]
  refine ⟨?_, ?_, ?_, ?_, ?_, ?_⟩
  · rw [hsucc]
  · rw [hprod]
    exact lookupA_setA_self s.nextId P s.producers
  · intro hnone
    rw [ho, hnone]
    rfl
  · intro oc hsome
    rw [ho, hsome]
    rfl
  · intro X
    constructor
    · intro hv
      rcases List.mem_map.1 hv with ⟨pv, hpv, hveq⟩
      have hcl : (viewOf pv).clientId = (viewOf (s.nextId, P)).clientId := by
        rw [hveq]
      have h2 : pv.2.appDataClientId = P.appDataClientId := hcl
      have h3 : pv.2.appDataClientId ≠ X := (mem_filterP.1 hpv).2.1
      rw [h2, hP] at h3
      exact fun hx => h3 hx.symm
    · intro hx
      apply List.mem_map_of_mem
      apply mem_filterP.2
      refine ⟨?_, ?_, ?_⟩
      · rw [hprod]
        exact self_mem_setA s.nextId P s.producers
      · rw [hP]
        exact fun hc => hx hc.symm
      · rw [hP]
  · rw [lookupA_eq_none_iff]
    intro kv hm
    have h1 : kv ∈ filterP (fun pv => pv.2.appDataClientId ≠ o)
        (((ctList (handleProduce s sock req).1 o).foldl cleanupTransport
          (handleProduce s sock req).1).producers) := hm
    rcases mem_filterP.1 h1 with ⟨h2, h3⟩
    have h4 : kv ∈ (handleProduce s sock req).1.producers :=
      producers_foldl_cleanup_subset _ _ _ h2
    rw [hprod] at h4
    rcases mem_setA h4 with h5 | h5
    · exfalso
      apply h3
      rw [h5, hP]
    · exact (lookupA_eq_none_iff.1 hfresh) kv h5

/-- Trace for the C10 witness: a joined client with a connected send
transport, about to produce with an overriding appData clientId. -/
def c10trace : List Op :=
  [.connect 0, .joinRoom 0 "r" "A", .createTransport 0 "send",
   .connectTransport 0 (some 0) true]

/-- C10 witness: produce with appData {clientId := "Z", source := camera};
the stored owner is the override "Z", not the session's "A". -/
theorem c10_witness :
    (handleProduce (run init c10trace) 0
      { transportId := some 0, kind := "video", rtpParameters := true,
        appData := some { clientId := some "Z",
                          source := some "camera" } }).2 =
      Ack.produced (run init c10trace).nextId ∧
    lookupA (run init c10trace).nextId
      (handleProduce (run init c10trace) 0
        { transportId := some 0, kind := "video", rtpParameters := true,
          appData := some { clientId := some "Z",
                            source := some "camera" } }).1.producers =
      some { transportId := 0, kind := "video", appDataClientId := "Z",
             appDataSource := some "camera", closed := false } := by
  have h := c10_appdata_merge (run init c10trace) 0
    { transportId := some 0, kind := "video", rtpParameters := true,
      appData := some { clientId := some "Z", source := some "camera" } }
    { clientId := "A", roomId := some "r", sendTransportId := some 0,
      recvTransportId := none }
    0
    { clientId := "A", ttype := TType.send, connected := true,
      closed := false, createdAt := 0 }
    "r" "Z"
    { transportId := 0, kind := "video", appDataClientId := "Z",
      appDataSource := some "camera", closed := false }
    rfl (by decide) rfl rfl (by decide) rfl rfl rfl rfl rfl rfl
    (Or.inr rfl) rfl rfl rfl
  exact ⟨h.1, h.2.1⟩

/-- The precondition failures C5 enumerates for produce: missing
parameters, transport not found, transport not owned by the caller, wrong
direction, transport not connected. -/
def produceFails (s : State) (sock : Nat) (req : ProduceReq) : Prop :=
  req.transportId = none ∨ req.kind = "" ∨ req.rtpParameters = false ∨
  (∃ tid, req.transportId = some tid ∧ lookupA tid s.transports = none) ∨
  (∃ tid info ci, req.transportId = some tid ∧
    lookupA tid s.transports = some info ∧
    lookupA sock s.clients = some ci ∧ info.clientId ≠ ci.clientId) ∨
  (∃ tid info, req.transportId = some tid ∧
    lookupA tid s.transports = some info ∧ info.ttype ≠ TType.send) ∨
  (∃ tid info, req.transportId = some tid ∧
    lookupA tid s.transports = some info ∧ info.connected = false)

/-- The precondition failures C5 enumerates for consume: missing
parameters, transport not found / not owned / wrong direction / not
connected, producer missing or closed, canConsume false. -/
def consumeFails (s : State) (sock : Nat) (req : ConsumeReq) : Prop :=
  req.transportId = none ∨ req.producerId = none ∨
  req.rtpCapabilities = false ∨
  (∃ tid, req.transportId = some tid ∧ lookupA tid s.transports = none) ∨
  (∃ tid info ci, req.transportId = some tid ∧
    lookupA tid s.transports = some info ∧
    lookupA sock s.clients = some ci ∧ info.clientId ≠ ci.clientId) ∨
  (∃ tid info, req.transportId = some tid ∧
    lookupA tid s.transports = some info ∧ info.ttype ≠ TType.recv) ∨
  (∃ tid info, req.transportId = some tid ∧
    lookupA tid s.transports = some info ∧ info.connected = false) ∨
  (∃ pid, req.producerId = some pid ∧ lookupA pid s.producers = none) ∨
  (∃ pid p, req.producerId = some pid ∧
    lookupA pid s.producers = some p ∧ p.closed = true) ∨
  (∃ pid p, req.producerId = some pid ∧
    lookupA pid s.producers = some p ∧ p.closed = false ∧
    req.canConsume = false)

/-- An ack that reports an error. -/
def isErrAck : Ack → Prop
  | .error _ => True
  | _ => False

theorem isErrAck_iff (a : Ack) : isErrAck a ↔ ∃ m, a = Ack.error m := by
  cases a <;> simp [isErrAck]

set_option maxHeartbeats 2000000 in
/-- C5: every enumerated precondition failure of produce and consume is
answered with a synchronous error ack, and whenever produce or consume
answers an error ack the state (all registries, the session maps and the
event log) is exactly unchanged. -/
theorem c5_error_acks (s : State) (sock : Nat) (preq : ProduceReq)
    (creq : ConsumeReq) :
    (∀ m, (handleProduce s sock preq).2 = Ack.error m →
      (handleProduce s sock preq).1 = s) ∧
    (∀ m, (handleConsume s sock creq).2 = Ack.error m →
      (handleConsume s sock creq).1 = s) ∧
    (produceFails s sock preq →
      ∃ m, (handleProduce s sock preq).2 = Ack.error m) ∧
    (consumeFails s sock creq →
      ∃ m, (handleConsume s sock creq).2 = Ack.error m) := by
  refine ⟨?_, ?_, ?_, ?_⟩
  · intro m
    unfold handleProduce svcProduce
    repeat' split
    all_goals intro h
    all_goals first
      | rfl
      | simp at h
  · intro m
    unfold handleConsume svcConsume
    repeat' split
    all_goals intro h
    all_goals first
      | rfl
      | simp at h
  · intro hf
    rw [← isErrAck_iff]
    unfold handleProduce svcProduce
    repeat' split
    all_goals try trivial
    all_goals exfalso
    all_goals unfold produceFails at hf
    all_goals rcases hf with h | h | h | ⟨tid, h1, h2⟩ |
      ⟨tid, info, ci, h1, h2, h3, h4⟩ | ⟨tid, info, h1, h2, h3⟩ |
      ⟨tid, info, h1, h2, h3⟩
    all_goals simp_all
  · intro hf
    rw [← isErrAck_iff]
    unfold handleConsume svcConsume
    repeat' split
    all_goals try trivial
    all_goals exfalso
    all_goals unfold consumeFails at hf
    all_goals rcases hf with h | h | h | ⟨tid, h1, h2⟩ |
      ⟨tid, info, ci, h1, h2, h3, h4⟩ | ⟨tid, info, h1, h2, h3⟩ |
      ⟨tid, info, h1, h2, h3⟩ | ⟨pid, h1, h2⟩ | ⟨pid, p, h1, h2, h3⟩ |
      ⟨pid, p, h1, h2, h3, h4⟩
    all_goals simp_all [ite_eq_iff]

/-- C5 witness: a produce with a missing transport parameter on the empty
state errors and leaves the state unchanged. -/
theorem c5_witness :
    (∃ m, (handleProduce init 0
      { transportId := none, kind := "video", rtpParameters := true,
        appData := none }).2 = Ack.error m) ∧
    (handleProduce init 0
      { transportId := none, kind := "video", rtpParameters := true,
        appData := none }).1 = init := by
  have h := c5_error_acks init 0
    { transportId := none, kind := "video", rtpParameters := true,
      appData := none }
    { transportId := none, producerId := none, rtpCapabilities := false,
      canConsume := false }
  have he := h.2.2.1 (Or.inl rfl)
  exact ⟨he, h.1 he.choose he.choose_spec⟩

/-! ### C1: single screen-share arbitration -/

/-- A live screen-share producer as arbitrated by the service: screen
source, video kind, not closed. -/
def screenVideo (p : Producer) : Prop :=
  p.appDataSource = some "screen" ∧ p.kind = "video" ∧ p.closed = false

instance : DecidablePred screenVideo := fun p => by
  unfold screenVideo; infer_instance

/-- Every live screen-video producer in the registry belongs to cid. -/
def OwnedBy (s : State) (cid : String) : Prop :=
  ∀ pv ∈ s.producers, screenVideo pv.2 → pv.2.appDataClientId = cid

/-- All live screen-video producers in the registry share one owner. -/
def SameOwner (s : State) : Prop :=
  ∀ pv ∈ s.producers, ∀ qv ∈ s.producers, screenVideo pv.2 →
    screenVideo qv.2 → pv.2.appDataClientId = qv.2.appDataClientId

/-- Does a produce request carry appData.source = screen? -/
def screenReqB (req : ProduceReq) : Bool :=
  decide (req.appData.bind ReqAppData.source = some "screen")

/-- Is the given previous operation a closeAllScreenShares from the same
socket? -/
def casForB (sock : Nat) : Option Op → Bool
  | some (Op.closeAllScreenShares s0) => decide (s0 = sock)
  | _ => false

/-- The client discipline of the claim, strengthened to immediate
precedence: every produce carrying appData.source = screen is immediately
preceded by a closeAllScreenShares from the same socket. -/
def DisciplinedFromB : Option Op → List Op → Bool
  | _, [] => true
  | prev, op :: rest =>
    (match op with
     | .produce sock req => !screenReqB req || casForB sock prev
     | _ => true) && DisciplinedFromB (some op) rest

/-- No produce request overrides the server-assigned appData clientId. -/
def NoOverrideB : List Op → Bool
  | [] => true
  | op :: rest =>
    (match op with
     | .produce _ req => decide (req.appData.bind ReqAppData.clientId = none)
     | _ => true) && NoOverrideB rest

/-- Induction payload: when the previous operation was a
closeAllScreenShares from a joined session, every live screen-video
producer belongs to that session's client. -/
def GoodPrev (prev : Option Op) (s : State) : Prop :=
  ∀ sock, prev = some (Op.closeAllScreenShares sock) →
    ∀ ci, lookupA sock s.clients = some ci → ci.clientId ≠ "" →
      OwnedBy s ci.clientId

theorem casForB_true {sock : Nat} {prev : Option Op}
    (h : casForB sock prev = true) :
    prev = some (Op.closeAllScreenShares sock) := by
  cases prev with
  | none => simp [casForB] at h
  | some op =>
    cases op with
    | closeAllScreenShares s0 =>
      have h2 : s0 = sock := by simpa [casForB] using h
      rw [h2]
    | connect s0 => simp [casForB] at h
    | disconnect s0 => simp [casForB] at h
    | joinRoom s0 r c => simp [casForB] at h
    | createTransport s0 ty => simp [casForB] at h
    | connectTransport s0 t d => simp [casForB] at h
    | produce s0 req => simp [casForB] at h
    | consume s0 req => simp [casForB] at h
    | timerFire t => simp [casForB] at h

theorem sameOwner_mono {s s2 : State}
    (hsub : ∀ pv ∈ s2.producers, pv ∈ s.producers) (h : SameOwner s) :
    SameOwner s2 :=
  fun pv hp qv hq h1 h2 => h pv (hsub pv hp) qv (hsub qv hq) h1 h2

theorem sameOwner_of_ownedBy {s : State} {cid : String}
    (h : OwnedBy s cid) : SameOwner s := by
  intro pv hp qv hq h1 h2
  rw [h pv hp h1, h qv hq h2]

theorem sameOwner_of_eq {s s2 : State} (h : s2.producers = s.producers)
    (hs : SameOwner s) : SameOwner s2 :=
  sameOwner_mono (fun _pv hp => h ▸ hp) hs

theorem producers_handleJoinRoom (s : State) (sock : Nat) (r c : String) :
    (handleJoinRoom s sock r c).1.producers = s.producers := by
  unfold handleJoinRoom
  repeat' split
  all_goals rfl

theorem producers_handleCreateTransport (s : State) (sock : Nat)
    (ty : String) :
    (handleCreateTransport s sock ty).1.producers = s.producers := by
  unfold handleCreateTransport svcCreateTransport
  repeat' split
  all_goals rfl

theorem producers_handleConnectTransport (s : State) (sock : Nat)
    (t : Option Nat) (d : Bool) :
    (handleConnectTransport s sock t d).1.producers = s.producers := by
  unfold handleConnectTransport svcConnectTransport
  repeat' split
  all_goals try rfl
  all_goals rename_i heq
  all_goals repeat' (split at heq)
  all_goals try (exfalso; exact Except.noConfusion heq)
  all_goals injection heq with heq2
  all_goals subst heq2
  all_goals rfl

set_option maxHeartbeats 1000000 in
theorem producers_handleConsume (s : State) (sock : Nat)
    (req : ConsumeReq) :
    (handleConsume s sock req).1.producers = s.producers := by
  unfold handleConsume svcConsume
  repeat' split
  all_goals try rfl
  all_goals rename_i heq
  all_goals repeat' (split at heq)
  all_goals try (exfalso; exact Except.noConfusion heq)
  all_goals injection heq with heq2
  all_goals injection heq2 with h1 h2
  all_goals subst h1
  all_goals rfl

theorem producers_cleanupClient_subset {s : State} {cid : String}
    {pv : Nat × Producer} (h : pv ∈ (cleanupClient s cid).producers) :
    pv ∈ s.producers :=
  producers_foldl_cleanup_subset _ _ _ (filterP_subset h)

theorem producers_handleDisconnect_subset {s : State} {sock : Nat}
    {pv : Nat × Producer} (h : pv ∈ (handleDisconnect s sock).producers) :
    pv ∈ s.producers := by
  unfold handleDisconnect at h
  cases hcl : lookupA sock s.clients with
  | none =>
    simp only [hcl] at h
    exact h
  | some ci =>
    by_cases hcid : ci.clientId ≠ ""
    · cases hrm : ci.roomId with
      | none =>
        simp only [hcl, hrm] at h
        repeat rw [if_pos hcid] at h
        try simp only [] at h
        have h2 := producers_cleanupClient_subset h
        exact h2
      | some r =>
        simp only [hcl, hrm] at h
        repeat rw [if_pos hcid] at h
        try simp only [] at h
        have h2 := producers_cleanupClient_subset h
        exact h2
    · cases hrm : ci.roomId <;> simp only [hcl, hrm] at h <;>
        (repeat rw [if_neg hcid] at h) <;> exact h

theorem producers_handleCAS_subset {s : State} {sock : Nat}
    {pv : Nat × Producer}
    (h : pv ∈ (handleCloseAllScreenShares s sock).1.producers) :
    pv ∈ s.producers := by
  unfold handleCloseAllScreenShares svcCloseAllScreenShares at h
  repeat' split at h
  all_goals first
    | exact h
    | exact filterP_subset h

theorem producers_reaperFire_subset {s : State} {tid : Nat}
    {pv : Nat × Producer} (h : pv ∈ (reaperFire s tid).producers) :
    pv ∈ s.producers := by
  unfold reaperFire at h
  repeat' split at h
  all_goals first
    | exact h
    | exact producers_cleanupTransport_subset h

/-- Outcome split of handleProduce on the producer registry: unchanged, or
one producer appended under the session's appData merge. -/
theorem handleProduce_producers (s : State) (sock : Nat)
    (req : ProduceReq) :
    (handleProduce s sock req).1.producers = s.producers ∨
    (∃ ci tid, lookupA sock s.clients = some ci ∧ ci.clientId ≠ "" ∧
      req.transportId = some tid ∧
      (handleProduce s sock req).1.producers = setA s.nextId
        { transportId := tid, kind := req.kind,
          appDataClientId :=
            (req.appData.bind ReqAppData.clientId).getD ci.clientId,
          appDataSource := req.appData.bind ReqAppData.source,
          closed := false } s.producers) := by
  unfold handleProduce svcProduce
  cases hcl : lookupA sock s.clients with
  | none =>
    left
    rfl
  | some ci =>
    simp only []
    by_cases hcid : ci.clientId = ""
    · left
      rw [if_pos hcid]
    · rw [if_neg hcid]
      cases hrm : ci.roomId with
      | none =>
        left
        rfl
      | some room =>
        simp only []
        cases htid : req.transportId with
        | none =>
          left
          rfl
        | some tid =>
          simp only []
          by_cases hpar : req.kind = "" ∨ req.rtpParameters = false
          · left
            rw [if_pos hpar]
          · rw [if_neg hpar]
            cases htr : lookupA tid s.transports with
            | none =>
              left
              rfl
            | some info =>
              simp only []
              by_cases hown : info.clientId ≠ ci.clientId
              · left
                rw [if_pos hown]
              · rw [if_neg hown]
                by_cases hdir : info.ttype ≠ TType.send
                · left
                  rw [if_pos hdir]
                · rw [if_neg hdir]
                  by_cases hconn : info.connected = false
                  · left
                    rw [if_pos hconn]
                  · rw [if_neg hconn]
                    by_cases hclosed : info.closed = true
                    · left
                      rw [if_pos hclosed]
                    · rw [if_neg hclosed]
                      rw [if_neg hconn]
                      rw [if_neg hdir]
                      by_cases hkd : req.kind ≠ "audio" ∧ req.kind ≠ "video"
                      · left
                        rw [if_pos hkd]
                      · rw [if_neg hkd]
                        right
                        refine ⟨ci, tid, ?_, hcid, ?_, rfl⟩ <;> rfl

/-- Outcome split of handleCloseAllScreenShares: the clients map is always
untouched, and either the call ran for a joined session ci and the
registry keeps exactly the producers not matching the sweep, or it was
rejected and nothing changed. -/
theorem handleCAS_cases (s : State) (sock : Nat) :
    (handleCloseAllScreenShares s sock).1.clients = s.clients ∧
    ((∃ ci, lookupA sock s.clients = some ci ∧ ci.clientId ≠ "" ∧
        (handleCloseAllScreenShares s sock).1.producers =
          filterP (fun pv => ¬ screenMatch ci.clientId pv) s.producers) ∨
      ((handleCloseAllScreenShares s sock).1 = s ∧
        ∀ ci, lookupA sock s.clients = some ci → ci.clientId = "")) := by
  cases hcl : lookupA sock s.clients with
  | none =>
    refine ⟨?_, Or.inr ⟨?_, ?_⟩⟩
    · unfold handleCloseAllScreenShares
      rw [hcl]
    · unfold handleCloseAllScreenShares
      rw [hcl]
    · intro ci hci
      exact Option.noConfusion hci
  | some ci =>
    by_cases hcid : ci.clientId = ""
    · refine ⟨?_, Or.inr ⟨?_, ?_⟩⟩
      · unfold handleCloseAllScreenShares
        rw [hcl]
        simp [hcid]
      · unfold handleCloseAllScreenShares
        rw [hcl]
        simp [hcid]
      · intro ci2 hci2
        injection hci2 with h3
        rw [← h3]
        exact hcid
    · refine ⟨?_, Or.inl ⟨ci, rfl, hcid, ?_⟩⟩
      · unfold handleCloseAllScreenShares svcCloseAllScreenShares
        rw [hcl]
        cases hrm : ci.roomId <;> simp [hcid, hrm]
      · unfold handleCloseAllScreenShares svcCloseAllScreenShares
        rw [hcl]
        cases hrm : ci.roomId <;> simp [hcid, hrm]

/-- The induction engine behind C1: the single-owner property of live
screen-video producers is preserved along any disciplined,
override-free trace. -/
theorem c1_key : ∀ (ops : List Op) (prev : Option Op) (s : State),
    DisciplinedFromB prev ops = true → NoOverrideB ops = true →
    SameOwner s → GoodPrev prev s → SameOwner (run s ops) := by
  intro ops
  induction ops with
  | nil =>
    intro prev s _ _ hin _
    exact hin
  | cons op rest ih =>
    intro prev s hd hno hin hgp
    have hd2 : DisciplinedFromB (some op) rest = true := by
      have h := hd
      unfold DisciplinedFromB at h
      rw [Bool.and_eq_true] at h
      exact h.2
    have hno2 : NoOverrideB rest = true := by
      have h := hno
      unfold NoOverrideB at h
      rw [Bool.and_eq_true] at h
      exact h.2
    have hso : SameOwner (step s op) ∧ GoodPrev (some op) (step s op) := by
      cases op with
      | connect sock =>
        refine ⟨sameOwner_of_eq rfl hin, ?_⟩
        intro sock2 hpe
        exact absurd hpe (by simp)
      | joinRoom sock r c =>
        refine ⟨sameOwner_of_eq (producers_handleJoinRoom s sock r c) hin,
          ?_⟩
        intro sock2 hpe
        exact absurd hpe (by simp)
      | createTransport sock ty =>
        refine
          ⟨sameOwner_of_eq (producers_handleCreateTransport s sock ty) hin,
            ?_⟩
        intro sock2 hpe
        exact absurd hpe (by simp)
      | connectTransport sock t d =>
        refine ⟨sameOwner_of_eq
          (producers_handleConnectTransport s sock t d) hin, ?_⟩
        intro sock2 hpe
        exact absurd hpe (by simp)
      | consume sock req =>
        refine ⟨sameOwner_of_eq (producers_handleConsume s sock req) hin,
          ?_⟩
        intro sock2 hpe
        exact absurd hpe (by simp)
      | disconnect sock =>
        refine ⟨sameOwner_mono
          (fun pv h => producers_handleDisconnect_subset h) hin, ?_⟩
        intro sock2 hpe
        exact absurd hpe (by simp)
      | timerFire t =>
        refine ⟨sameOwner_mono
          (fun pv h => producers_reaperFire_subset h) hin, ?_⟩
        intro sock2 hpe
        exact absurd hpe (by simp)
      | closeAllScreenShares csock =>
        rcases (handleCAS_cases s csock).2 with
          ⟨ci, hci, hcid, hprod⟩ | ⟨heq, hfail⟩
        · have how : OwnedBy (step s (Op.closeAllScreenShares csock))
              ci.clientId := by
            intro pv hp hsv
            have hp0 : pv ∈
                (handleCloseAllScreenShares s csock).1.producers := hp
            rw [hprod] at hp0
            have hp2 := hp0
            rcases hsv with ⟨h3, h4, _⟩
            by_contra hne
            exact (mem_filterP.1 hp2).2 ⟨h3, h4, hne⟩
          refine ⟨sameOwner_of_ownedBy how, ?_⟩
          intro sock2 hpe ci2 hci2 hcid2
          injection hpe with hpe2
          injection hpe2 with h3
          rw [← h3] at hci2
          rw [show (step s (Op.closeAllScreenShares csock)).clients
              = s.clients from (handleCAS_cases s csock).1] at hci2
          have h5 : ci2 = ci := by
            rw [hci2] at hci
            injection hci
          rw [h5]
          exact how
        · refine ⟨sameOwner_of_eq (by rw [show step s
            (Op.closeAllScreenShares csock) = s from heq]) hin, ?_⟩
          intro sock2 hpe ci2 hci2 hcid2
          injection hpe with hpe2
          injection hpe2 with h3
          rw [← h3] at hci2
          rw [show (step s (Op.closeAllScreenShares csock)).clients
              = s.clients from (handleCAS_cases s csock).1] at hci2
          exact absurd (hfail ci2 hci2) hcid2
      | produce psock req =>
        have hd1 : (!screenReqB req || casForB psock prev) = true := by
          have h := hd
          unfold DisciplinedFromB at h
          rw [Bool.and_eq_true] at h
          exact h.1
        have hnov : req.appData.bind ReqAppData.clientId = none := by
          have h := hno
          unfold NoOverrideB at h
          rw [Bool.and_eq_true] at h
          exact of_decide_eq_true h.1
        refine ⟨?_, ?_⟩
        · rcases handleProduce_producers s psock req with
            heq | ⟨ci, tid, hci, hcid, htid, heq⟩
          · exact sameOwner_of_eq heq hin
          · by_cases hsr : screenReqB req = true
            · have hcas : casForB psock prev = true := by
                rw [Bool.or_eq_true] at hd1
                rcases hd1 with h | h
                · rw [hsr] at h
                  exact absurd h (by simp)
                · exact h
              have hprev := casForB_true hcas
              have how : OwnedBy s ci.clientId := hgp psock hprev ci hci hcid
              have how2 : OwnedBy (step s (Op.produce psock req))
                  ci.clientId := by
                intro pv hp hsv
                have hp0 : pv ∈ (handleProduce s psock req).1.producers := hp
                rw [heq] at hp0
                rcases mem_setA hp0 with h5 | h5
                · rw [h5]
                  show ((req.appData.bind ReqAppData.clientId).getD
                    ci.clientId) = ci.clientId
                  simp [hnov]
                · exact how pv h5 hsv
              exact sameOwner_of_ownedBy how2
            · intro pv hp qv hq hv1 hv2
              have hsrc : req.appData.bind ReqAppData.source ≠
                  some "screen" := by
                intro hx
                exact hsr (decide_eq_true hx)
              have hp0 : pv ∈ (handleProduce s psock req).1.producers := hp
              have hq0 : qv ∈ (handleProduce s psock req).1.producers := hq
              rw [heq] at hp0 hq0
              rcases mem_setA hp0 with h5 | h5
              · subst h5
                exact absurd hv1.1 hsrc
              · rcases mem_setA hq0 with h6 | h6
                · subst h6
                  exact absurd hv2.1 hsrc
                · exact hin pv h5 qv h6 hv1 hv2
        · intro sock2 hpe
          exact absurd hpe (by simp)
    have hrun : run s (op :: rest) = run (step s op) rest := rfl
    rw [hrun]
    exact ih (some op) (step s op) hd2 hno2 hso.1 hso.2

/-- C1 amended: along every trace in which each produce carrying
appData.source = screen is immediately preceded by the producing client's
closeAllScreenShares, and no produce request overrides the appData
clientId, every reachable quiescent state has all live screen-video
producers owned by one single client — globally, hence per room at most
one owning client.  (The count itself can exceed one: see the
counterexample.) -/
theorem c1_single_screen_owner (ops : List Op)
    (hd : DisciplinedFromB none ops = true)
    (hno : NoOverrideB ops = true) :
    SameOwner (run init ops) := by
  apply c1_key ops none init hd hno
  · intro pv hp qv hq h1 h2
    exact absurd hp (List.not_mem_nil pv)
  · intro sock hpe
    exact Option.noConfusion hpe

/-- Trace for the C1 counterexample: one client A in room r shares its
screen twice, issuing closeAllScreenShares before each produce, exactly as
the claimed discipline requires. -/
def c1xTrace : List Op :=
  [.connect 0, .joinRoom 0 "r" "A", .createTransport 0 "send",
   .connectTransport 0 (some 0) true,
   .closeAllScreenShares 0,
   .produce 0 { transportId := some 0, kind := "video",
                rtpParameters := true,
                appData := some { clientId := none,
                                  source := some "screen" } },
   .closeAllScreenShares 0,
   .produce 0 { transportId := some 0, kind := "video",
                rtpParameters := true,
                appData := some { clientId := none,
                                  source := some "screen" } }]

/-- C1 counterexample: the trace obeys the claimed discipline (each
produce(source=screen) preceded — here immediately — by the caller's
closeAllScreenShares, no overrides), the final state is quiescent, yet
room r holds two live screen producers, because closeAllScreenShares
never closes the caller's own previous screen producer.  This refutes the
claimed bound of at most one screen producer per room. -/
theorem c1_counterexample :
    DisciplinedFromB none c1xTrace = true ∧
    NoOverrideB c1xTrace = true ∧
    ¬ ((filterP (fun pv => screenVideo pv.2 ∧
          roomOfClient (run init c1xTrace) pv.2.appDataClientId = some "r")
        (run init c1xTrace).producers).length ≤ 1) := by
  exact ⟨rfl, rfl, by decide⟩

/-- Trace for the C1 witness: a single disciplined screen share. -/
def c1wTrace : List Op :=
  [.connect 0, .joinRoom 0 "r" "A", .createTransport 0 "send",
   .connectTransport 0 (some 0) true,
   .closeAllScreenShares 0,
   .produce 0 { transportId := some 0, kind := "video",
                rtpParameters := true,
                appData := some { clientId := none,
                                  source := some "screen" } }]

/-- C1 amended witness: the discipline hypotheses hold of the concrete
trace and the theorem applies. -/
theorem c1_witness : SameOwner (run init c1wTrace) :=
  c1_single_screen_owner c1wTrace (by decide) (by decide)

/-! ### C7: disconnect cascade -/

/-- Reachability invariant tying the registries together: transport ids in
the client index are fresh, point at transports owned by that client, and
are duplicate-free; each consumer's transport is indexed under the
consumer's owner; each transport is indexed under its owner. -/
def WF (s : State) : Prop :=
  (∀ c t, t ∈ ctList s c → t < s.nextId) ∧
  (∀ c t, t ∈ ctList s c →
    ∃ info, lookupA t s.transports = some info ∧ info.clientId = c) ∧
  (∀ c, (ctList s c).Nodup) ∧
  (∀ cv ∈ s.consumers, cv.2.transportId ∈ ctList s cv.2.ownerClientId) ∧
  (∀ tv ∈ s.transports, tv.1 ∈ ctList s tv.2.clientId)

theorem WF_of_fields {s s2 : State} (ht : s2.transports = s.transports)
    (hc : ∀ cv ∈ s2.consumers, cv ∈ s.consumers)
    (hct : s2.clientTransports = s.clientTransports)
    (hn : s.nextId ≤ s2.nextId) (hwf : WF s) : WF s2 := by
  obtain ⟨w0, w1, w2, w3, w4⟩ := hwf
  have hctl : ∀ c, ctList s2 c = ctList s c := by
    intro c
    unfold ctList
    rw [hct]
  refine ⟨?_, ?_, ?_, ?_, ?_⟩
  · intro c t hm
    rw [hctl] at hm
    exact lt_of_lt_of_le (w0 c t hm) hn
  · intro c t hm
    rw [hctl] at hm
    rw [ht]
    exact w1 c t hm
  · intro c
    rw [hctl]
    exact w2 c
  · intro cv hm
    rw [hctl]
    exact w3 cv (hc cv hm)
  · intro tv hm
    rw [ht] at hm
    rw [hctl]
    exact w4 tv hm

theorem fields_handleJoinRoom (s : State) (sock : Nat) (r c : String) :
    (handleJoinRoom s sock r c).1.transports = s.transports ∧
    (∀ cv ∈ (handleJoinRoom s sock r c).1.consumers, cv ∈ s.consumers) ∧
    (handleJoinRoom s sock r c).1.clientTransports = s.clientTransports ∧
    s.nextId ≤ (handleJoinRoom s sock r c).1.nextId := by
  unfold handleJoinRoom
  repeat' split
  all_goals exact ⟨rfl, fun cv h => h, rfl, Nat.le_refl _⟩

theorem fields_handleCAS (s : State) (sock : Nat) :
    (handleCloseAllScreenShares s sock).1.transports = s.transports ∧
    (∀ cv ∈ (handleCloseAllScreenShares s sock).1.consumers,
      cv ∈ s.consumers) ∧
    (handleCloseAllScreenShares s sock).1.clientTransports =
      s.clientTransports ∧
    s.nextId ≤ (handleCloseAllScreenShares s sock).1.nextId := by
  unfold handleCloseAllScreenShares svcCloseAllScreenShares
  repeat' split
  all_goals refine ⟨rfl, ?_, rfl, Nat.le_refl _⟩
  all_goals intro cv h
  all_goals first
    | exact h
    | exact filterP_subset h

/-- Outcome split of handleProduce on the whole state. -/
theorem produce_cases (s : State) (sock : Nat) (req : ProduceReq) :
    ((handleProduce s sock req).1 = s) ∨
    (∃ ci tid room, lookupA sock s.clients = some ci ∧
      req.transportId = some tid ∧ ci.roomId = some room ∧
      (handleProduce s sock req).1 = { s with
        producers := setA s.nextId
          { transportId := tid, kind := req.kind,
            appDataClientId :=
              (req.appData.bind ReqAppData.clientId).getD ci.clientId,
            appDataSource := req.appData.bind ReqAppData.source,
            closed := false } s.producers,
        nextId := s.nextId + 1,
        events := s.events ++ [Ev.newProducer
          (filterP (fun m => m ≠ sock) (roomMembers s room))
          { producerId := s.nextId, kind := req.kind,
            clientId := ci.clientId,
            appDataClientId :=
              (req.appData.bind ReqAppData.clientId).getD ci.clientId,
            appDataSource := req.appData.bind ReqAppData.source }] }) := by
  unfold handleProduce svcProduce
  cases hcl : lookupA sock s.clients with
  | none => left; rfl
  | some ci =>
    simp only []
    by_cases hcid : ci.clientId = ""
    · rw [if_pos hcid]
      left
      rfl
    · rw [if_neg hcid]
      cases hrm : ci.roomId with
      | none => left; rfl
      | some room =>
        simp only []
        cases htid : req.transportId with
        | none => left; rfl
        | some tid =>
          simp only []
          by_cases hpar : req.kind = "" ∨ req.rtpParameters = false
          · rw [if_pos hpar]
            left
            rfl
          · rw [if_neg hpar]
            cases htr : lookupA tid s.transports with
            | none => left; rfl
            | some info =>
              simp only []
              by_cases hown : info.clientId ≠ ci.clientId
              · rw [if_pos hown]
                left
                rfl
              · rw [if_neg hown]
                by_cases hdir : info.ttype ≠ TType.send
                · rw [if_pos hdir]
                  left
                  rfl
                · rw [if_neg hdir]
                  by_cases hconn : info.connected = false
                  · rw [if_pos hconn]
                    left
                    rfl
                  · rw [if_neg hconn]
                    by_cases hclosed : info.closed = true
                    · rw [if_pos hclosed]
                      left
                      rfl
                    · rw [if_neg hclosed]
                      rw [if_neg hconn]
                      rw [if_neg hdir]
                      by_cases hkd : req.kind ≠ "audio" ∧ req.kind ≠ "video"
                      · rw [if_pos hkd]
                        left
                        rfl
                      · rw [if_neg hkd]
                        right
                        refine ⟨ci, tid, room, ?_, ?_, hrm, rfl⟩ <;> rfl

theorem fields_handleProduce (s : State) (sock : Nat) (req : ProduceReq) :
    (handleProduce s sock req).1.transports = s.transports ∧
    (∀ cv ∈ (handleProduce s sock req).1.consumers, cv ∈ s.consumers) ∧
    (handleProduce s sock req).1.clientTransports = s.clientTransports ∧
    s.nextId ≤ (handleProduce s sock req).1.nextId := by
  rcases produce_cases s sock req with heq | ⟨ci, tid, room, _, _, _, heq⟩
  · rw [heq]
    exact ⟨rfl, fun cv h => h, rfl, Nat.le_refl _⟩
  · rw [heq]
    exact ⟨rfl, fun cv h => h, rfl, Nat.le_succ _⟩

/-- Outcome split of handleCreateTransport on the registries. -/
theorem createTransport_cases (s : State) (sock : Nat) (ty : String) :
    ((handleCreateTransport s sock ty).1.transports = s.transports ∧
      (handleCreateTransport s sock ty).1.consumers = s.consumers ∧
      (handleCreateTransport s sock ty).1.clientTransports =
        s.clientTransports ∧
      (handleCreateTransport s sock ty).1.nextId = s.nextId) ∨
    (∃ cid ttype2,
      (handleCreateTransport s sock ty).1.transports =
        setA s.nextId
          { clientId := cid, ttype := ttype2, connected := false,
            closed := false, createdAt := s.now } s.transports ∧
      (handleCreateTransport s sock ty).1.clientTransports =
        setA cid
          (if s.nextId ∈ ctList s cid then ctList s cid
           else ctList s cid ++ [s.nextId]) s.clientTransports ∧
      (handleCreateTransport s sock ty).1.consumers = s.consumers ∧
      (handleCreateTransport s sock ty).1.nextId = s.nextId + 1) := by
  unfold handleCreateTransport svcCreateTransport
  cases hcl : lookupA sock s.clients with
  | none =>
    left
    exact ⟨rfl, rfl, rfl, rfl⟩
  | some ci =>
    simp only []
    by_cases hcid : ci.clientId = ""
    · rw [if_pos hcid]
      left
      exact ⟨rfl, rfl, rfl, rfl⟩
    · rw [if_neg hcid]
      by_cases hty : ty ≠ "send" ∧ ty ≠ "recv"
      · rw [if_pos hty]
        left
        exact ⟨rfl, rfl, rfl, rfl⟩
      · rw [if_neg hty]
        by_cases hsend : (if ty = "send" then TType.send else TType.recv)
            = TType.send
        · rw [if_pos hsend]
          right
          exact ⟨ci.clientId, _, rfl, rfl, rfl, rfl⟩
        · rw [if_neg hsend]
          right
          exact ⟨ci.clientId, _, rfl, rfl, rfl, rfl⟩

/-- Outcome split of handleConnectTransport: unchanged, or one transport
flipped to connected. -/
theorem connectTransport_cases (s : State) (sock : Nat) (t : Option Nat)
    (d : Bool) :
    ((handleConnectTransport s sock t d).1 = s) ∨
    (∃ tid info, lookupA tid s.transports = some info ∧
      (handleConnectTransport s sock t d).1 =
        { s with
            transports :=
              setA tid { info with connected := true } s.transports }) := by
  cases t with
  | none => left; rfl
  | some tid =>
    unfold handleConnectTransport svcConnectTransport
    simp only []
    by_cases hd1 : d = false
    · rw [if_pos hd1]
      left
      rfl
    · rw [if_neg hd1]
      cases hcl : lookupA sock s.clients with
      | none => left; rfl
      | some ci =>
        simp only []
        cases htr : lookupA tid s.transports with
        | none => left; rfl
        | some info =>
          simp only []
          by_cases hown : info.clientId ≠ ci.clientId
          · rw [if_pos hown]
            left
            rfl
          · rw [if_neg hown]
            by_cases hcls : info.closed = true
            · rw [if_pos hcls]
              left
              rfl
            · rw [if_neg hcls]
              right
              exact ⟨tid, info, htr, rfl⟩

/-- Outcome split of handleConsume: unchanged, or one consumer registered
on a transport present in the registry. -/
theorem consume_cases (s : State) (sock : Nat) (req : ConsumeReq) :
    ((handleConsume s sock req).1 = s) ∨
    (∃ tid pid info p, lookupA tid s.transports = some info ∧
      lookupA pid s.producers = some p ∧
      (handleConsume s sock req).1 = { s with
        consumers := setA s.nextId
          { transportId := tid, producerId := pid, kind := p.kind,
            paused := false, ownerClientId := info.clientId,
            appDataClientId := none, closed := false } s.consumers,
        nextId := s.nextId + 1 }) := by
  unfold handleConsume svcConsume
  cases hcl : lookupA sock s.clients with
  | none => left; rfl
  | some ci =>
    simp only []
    by_cases hcid : ci.clientId = ""
    · rw [if_pos hcid]
      left
      rfl
    · rw [if_neg hcid]
      cases htid : req.transportId with
      | none => left; rfl
      | some tid =>
        simp only []
        cases hpid : req.producerId with
        | none => left; rfl
        | some pid =>
          simp only []
          by_cases hcaps : req.rtpCapabilities = false
          · rw [if_pos hcaps]
            left
            rfl
          · rw [if_neg hcaps]
            cases htr : lookupA tid s.transports with
            | none => left; rfl
            | some info =>
              simp only []
              by_cases hown : info.clientId ≠ ci.clientId
              · rw [if_pos hown]
                left
                rfl
              · rw [if_neg hown]
                by_cases hdir : info.ttype ≠ TType.recv
                · rw [if_pos hdir]
                  left
                  rfl
                · rw [if_neg hdir]
                  by_cases hconn : info.connected = false
                  · rw [if_pos hconn]
                    left
                    rfl
                  · rw [if_neg hconn]
                    by_cases hcls : info.closed = true
                    · rw [if_pos hcls]
                      left
                      rfl
                    · rw [if_neg hcls]
                      rw [if_neg hconn]
                      rw [if_neg hdir]
                      cases hpr : lookupA pid s.producers with
                      | none => left; rfl
                      | some p =>
                        simp only []
                        by_cases hpcl : p.closed = true
                        · rw [if_pos hpcl]
                          left
                          rfl
                        · rw [if_neg hpcl]
                          by_cases hcc : req.canConsume = false
                          · rw [if_pos hcc]
                            left
                            rfl
                          · rw [if_neg hcc]
                            right
                            exact ⟨tid, pid, info, p, htr, hpr, rfl⟩

theorem WF_createTransport_update (s : State) (cid : String) (tt : TType)
    (hwf : WF s) {s2 : State}
    (ht : s2.transports = setA s.nextId
      { clientId := cid, ttype := tt, connected := false, closed := false,
        createdAt := s.now } s.transports)
    (hct : s2.clientTransports = setA cid
      (if s.nextId ∈ ctList s cid then ctList s cid
       else ctList s cid ++ [s.nextId]) s.clientTransports)
    (hc : s2.consumers = s.consumers)
    (hn : s2.nextId = s.nextId + 1) : WF s2 := by
  obtain ⟨w0, w1, w2, w3, w4⟩ := hwf
  have hfresh : s.nextId ∉ ctList s cid := fun hm =>
    lt_irrefl s.nextId (w0 cid s.nextId hm)
  have hcts2 : (if s.nextId ∈ ctList s cid then ctList s cid
      else ctList s cid ++ [s.nextId]) = ctList s cid ++ [s.nextId] :=
    if_neg hfresh
  have hctl : ∀ c, ctList s2 c =
      if c = cid then ctList s cid ++ [s.nextId] else ctList s c := by
    intro c
    show (lookupA c s2.clientTransports).getD [] = _
    rw [hct, hcts2]
    by_cases hc2 : c = cid
    · rw [if_pos hc2, hc2, lookupA_setA_self]
      rfl
    · rw [if_neg hc2, lookupA_setA_ne _ _ hc2]
      rfl
  refine ⟨?_, ?_, ?_, ?_, ?_⟩
  · intro c t hm
    rw [hctl] at hm
    rw [hn]
    by_cases hc2 : c = cid
    · rw [if_pos hc2] at hm
      rcases List.mem_append.1 hm with h | h
      · exact lt_trans (w0 cid t h) (Nat.lt_succ_self _)
      · have h2 : t = s.nextId := by simpa using h
        rw [h2]
        exact Nat.lt_succ_self _
    · rw [if_neg hc2] at hm
      exact lt_trans (w0 c t hm) (Nat.lt_succ_self _)
  · intro c t hm
    rw [hctl] at hm
    rw [ht]
    by_cases hc2 : c = cid
    · rw [if_pos hc2] at hm
      rcases List.mem_append.1 hm with h | h
      · rcases w1 cid t h with ⟨info2, hl2, hcl2⟩
        have hne : t ≠ s.nextId := Nat.ne_of_lt (w0 cid t h)
        rw [lookupA_setA_ne _ _ hne]
        refine ⟨info2, hl2, ?_⟩
        rw [hc2]
        exact hcl2
      · have h2 : t = s.nextId := by simpa using h
        subst h2
        rw [lookupA_setA_self]
        exact ⟨_, rfl, hc2.symm⟩
    · rw [if_neg hc2] at hm
      rcases w1 c t hm with ⟨info2, hl2, hcl2⟩
      have hne : t ≠ s.nextId := Nat.ne_of_lt (w0 c t hm)
      rw [lookupA_setA_ne _ _ hne]
      exact ⟨info2, hl2, hcl2⟩
  · intro c
    rw [hctl]
    by_cases hc2 : c = cid
    · rw [if_pos hc2]
      rw [List.nodup_append]
      refine ⟨w2 cid, List.nodup_singleton _, ?_⟩
      intro a ha hb
      have h2 : a = s.nextId := by simpa using hb
      rw [h2] at ha
      exact hfresh ha
    · rw [if_neg hc2]
      exact w2 c
  · intro cv hm
    rw [hc] at hm
    rw [hctl]
    by_cases hc2 : cv.2.ownerClientId = cid
    · rw [if_pos hc2]
      refine List.mem_append_left _ ?_
      have h2 := w3 cv hm
      rw [hc2] at h2
      exact h2
    · rw [if_neg hc2]
      exact w3 cv hm
  · intro tv hm
    rw [ht] at hm
    rcases mem_setA hm with h | h
    · rw [h]
      rw [hctl]
      simp
    · rw [hctl]
      by_cases hc2 : tv.2.clientId = cid
      · rw [if_pos hc2]
        refine List.mem_append_left _ ?_
        have h2 := w4 tv h
        rw [hc2] at h2
        exact h2
      · rw [if_neg hc2]
        exact w4 tv h

theorem WF_connect_update (s : State) (tid : Nat) (info : TransportInfo)
    (hl : lookupA tid s.transports = some info) (hwf : WF s) {s2 : State}
    (heq : s2 = { s with
        transports :=
          setA tid { info with connected := true } s.transports }) :
    WF s2 := by
  subst heq
  obtain ⟨w0, w1, w2, w3, w4⟩ := hwf
  refine ⟨w0, ?_, w2, w3, ?_⟩
  · intro c t hm
    rcases w1 c t hm with ⟨info2, hl2, hcl2⟩
    by_cases ht2 : t = tid
    · subst ht2
      rw [hl] at hl2
      injection hl2 with h3
      subst h3
      show ∃ i, lookupA t (setA t _ s.transports) = some i ∧ _
      rw [lookupA_setA_self]
      exact ⟨_, rfl, hcl2⟩
    · show ∃ i, lookupA t (setA tid _ s.transports) = some i ∧ _
      rw [lookupA_setA_ne _ _ ht2]
      exact ⟨info2, hl2, hcl2⟩
  · intro tv hm
    rcases mem_setA hm with h | h
    · rw [h]
      exact w4 (tid, info) (lookupA_mem hl)
    · exact w4 tv h

theorem WF_consume_update (s : State) (tid pid : Nat)
    (info : TransportInfo) (p : Producer)
    (hl : lookupA tid s.transports = some info) (hwf : WF s) {s2 : State}
    (heq : s2 = { s with
        consumers := setA s.nextId
          { transportId := tid, producerId := pid, kind := p.kind,
            paused := false, ownerClientId := info.clientId,
            appDataClientId := none, closed := false } s.consumers,
        nextId := s.nextId + 1 }) : WF s2 := by
  subst heq
  obtain ⟨w0, w1, w2, w3, w4⟩ := hwf
  refine ⟨?_, w1, w2, ?_, w4⟩
  · intro c t hm
    exact lt_trans (w0 c t hm) (Nat.lt_succ_self _)
  · intro cv hm
    rcases mem_setA hm with h | h
    · rw [h]
      exact w4 (tid, info) (lookupA_mem hl)
    · exact w3 cv h

theorem WF_cleanupTransport (s : State) (tid : Nat) (hwf : WF s) :
    WF (cleanupTransport s tid) := by
  cases hl : lookupA tid s.transports with
  | none =>
    rw [cleanupTransport_not_found s tid hl]
    exact hwf
  | some info =>
    obtain ⟨w0, w1, w2, w3, w4⟩ := hwf
    have hctl : ∀ c, ctList (cleanupTransport s tid) c =
        if c = info.clientId then filterP (fun t => t ≠ tid) (ctList s c)
        else ctList s c := by
      intro c
      by_cases hc : c = info.clientId
      · rw [if_pos hc, hc]
        exact ctList_cleanupTransport_owner s tid info hl
      · rw [if_neg hc]
        exact ctList_cleanupTransport_other s tid info hl c hc
    have hsub : ∀ c t, t ∈ ctList (cleanupTransport s tid) c →
        t ∈ ctList s c ∧ t ≠ tid := by
      intro c t hm
      rw [hctl] at hm
      by_cases hc : c = info.clientId
      · rw [if_pos hc] at hm
        exact ⟨filterP_subset hm, filterP_prop (p := fun t => t ≠ tid) hm⟩
      · rw [if_neg hc] at hm
        refine ⟨hm, ?_⟩
        intro h2
        subst h2
        rcases w1 c t hm with ⟨info2, hl2, hcl2⟩
        rw [hl] at hl2
        injection hl2 with h3
        subst h3
        exact hc hcl2.symm
    have htrs : (cleanupTransport s tid).transports =
        eraseA tid s.transports := by
      rw [cleanupTransport_of_lookup s tid info hl]
    have hcons : ∀ cv, cv ∈ (cleanupTransport s tid).consumers →
        cv ∈ s.consumers ∧ cv.2.transportId ≠ tid := by
      intro cv hm
      rw [cleanupTransport_of_lookup s tid info hl] at hm
      have hm2 : cv ∈ filterP (fun cv => cv.2.transportId ≠ tid ∧
          cv.2.producerId ∉
            (filterP (fun pv => pv.2.transportId = tid) s.producers).map
              Prod.fst) s.consumers := hm
      exact ⟨filterP_subset hm2, (filterP_prop hm2).1⟩
    have hnid : (cleanupTransport s tid).nextId = s.nextId := by
      rw [cleanupTransport_of_lookup s tid info hl]
    refine ⟨?_, ?_, ?_, ?_, ?_⟩
    · intro c t hm
      rw [hnid]
      exact w0 c t (hsub c t hm).1
    · intro c t hm
      rcases hsub c t hm with ⟨h1, h2⟩
      rcases w1 c t h1 with ⟨info2, hl2, hcl2⟩
      rw [htrs, lookupA_eraseA_ne _ h2]
      exact ⟨info2, hl2, hcl2⟩
    · intro c
      rw [hctl]
      by_cases hc : c = info.clientId
      · rw [if_pos hc]
        exact nodup_filterP _ (w2 c)
      · rw [if_neg hc]
        exact w2 c
    · intro cv hm
      rcases hcons cv hm with ⟨h1, h2⟩
      rw [hctl]
      by_cases hc : cv.2.ownerClientId = info.clientId
      · rw [if_pos hc]
        exact mem_filterP.2 ⟨w3 cv h1, h2⟩
      · rw [if_neg hc]
        exact w3 cv h1
    · intro tv hm
      rw [htrs] at hm
      rcases mem_eraseA.1 hm with ⟨h1, h2⟩
      rw [hctl]
      by_cases hc : tv.2.clientId = info.clientId
      · rw [if_pos hc]
        exact mem_filterP.2 ⟨w4 tv h1, h2⟩
      · rw [if_neg hc]
        exact w4 tv h1

theorem WF_foldl_cleanup (ts : List Nat) :
    ∀ s : State, WF s → WF (ts.foldl cleanupTransport s) := by
  induction ts with
  | nil => intro s hwf; exact hwf
  | cons t ts ih =>
    intro s hwf
    exact ih (cleanupTransport s t) (WF_cleanupTransport s t hwf)

theorem consumers_cleanupClient_subset {s : State} {cid : String}
    {cv : Nat × Consumer} (h : cv ∈ (cleanupClient s cid).consumers) :
    cv ∈ ((ctList s cid).foldl cleanupTransport s).consumers := by
  simp only [cleanupClient] at h
  exact filterP_subset (filterP_subset h)

theorem WF_cleanupClient (s : State) (cid : String) (hwf : WF s) :
    WF (cleanupClient s cid) := by
  have h1 := WF_foldl_cleanup (ctList s cid) s hwf
  have ht2 : (cleanupClient s cid).transports =
      ((ctList s cid).foldl cleanupTransport s).transports := rfl
  have hct2 : (cleanupClient s cid).clientTransports =
      ((ctList s cid).foldl cleanupTransport s).clientTransports := rfl
  have hn2 : ((ctList s cid).foldl cleanupTransport s).nextId ≤
      (cleanupClient s cid).nextId := le_of_eq rfl
  exact WF_of_fields ht2
    (fun cv h => consumers_cleanupClient_subset h) hct2 hn2 h1

theorem WF_handleDisconnect (s : State) (sock : Nat) (hwf : WF s) :
    WF (handleDisconnect s sock) := by
  unfold handleDisconnect
  simp only []
  cases hcl : lookupA sock s.clients with
  | none =>
    exact WF_of_fields rfl (fun cv h => h) rfl (Nat.le_refl _) hwf
  | some ci =>
    simp only []
    have hbase : WF { s with
        rooms :=
          s.rooms.map (fun rv => (rv.1, filterP (fun m => m ≠ sock) rv.2)) } :=
      WF_of_fields rfl (fun cv h => h) rfl (Nat.le_refl _) hwf
    by_cases hcid : ci.clientId ≠ ""
    · have hclean := WF_cleanupClient _ ci.clientId hbase
      cases hrm : ci.roomId with
      | none =>
        simp only []
        repeat rw [if_pos hcid]
        exact WF_of_fields rfl (fun cv h => h) rfl (Nat.le_refl _) hclean
      | some r =>
        simp only []
        repeat rw [if_pos hcid]
        exact WF_of_fields rfl (fun cv h => h) rfl (Nat.le_refl _) hclean
    · cases hrm : ci.roomId with
      | none =>
        simp only []
        repeat rw [if_neg hcid]
        exact WF_of_fields rfl (fun cv h => h) rfl (Nat.le_refl _) hbase
      | some r =>
        simp only []
        repeat rw [if_neg hcid]
        exact WF_of_fields rfl (fun cv h => h) rfl (Nat.le_refl _) hbase

theorem WF_step (s : State) (op : Op) (hwf : WF s) : WF (step s op) := by
  cases op with
  | connect sock =>
    exact WF_of_fields rfl (fun cv h => h) rfl (Nat.le_refl _) hwf
  | joinRoom sock r c =>
    obtain ⟨h1, h2, h3, h4⟩ := fields_handleJoinRoom s sock r c
    exact WF_of_fields h1 h2 h3 h4 hwf
  | closeAllScreenShares sock =>
    obtain ⟨h1, h2, h3, h4⟩ := fields_handleCAS s sock
    exact WF_of_fields h1 h2 h3 h4 hwf
  | produce sock req =>
    obtain ⟨h1, h2, h3, h4⟩ := fields_handleProduce s sock req
    exact WF_of_fields h1 h2 h3 h4 hwf
  | createTransport sock ty =>
    rcases createTransport_cases s sock ty with
      ⟨h1, h2, h3, h4⟩ | ⟨cid, tt, h1, h2, h3, h4⟩
    · exact WF_of_fields h1 (fun cv h => h2 ▸ h) h3 h4.symm.le hwf
    · exact WF_createTransport_update s cid tt hwf h1 h2 h3 h4
  | connectTransport sock t d =>
    rcases connectTransport_cases s sock t d with heq | ⟨tid, info, hl, heq⟩
    · show WF ((handleConnectTransport s sock t d).1)
      rw [heq]
      exact hwf
    · exact WF_connect_update s tid info hl hwf heq
  | consume sock req =>
    rcases consume_cases s sock req with heq | ⟨tid, pid, info, p, hl, _, heq⟩
    · show WF ((handleConsume s sock req).1)
      rw [heq]
      exact hwf
    · exact WF_consume_update s tid pid info p hl hwf heq
  | disconnect sock =>
    exact WF_handleDisconnect s sock hwf
  | timerFire t =>
    show WF (reaperFire s t)
    unfold reaperFire
    cases hl : lookupA t s.transports with
    | none => exact hwf
    | some info =>
      simp only []
      by_cases hc : info.connected = false
      · rw [if_pos hc]
        exact WF_cleanupTransport s t hwf
      · rw [if_neg hc]
        exact hwf

theorem WF_init : WF init := by
  refine ⟨?_, ?_, ?_, ?_, ?_⟩
  · intro c t hm
    exact absurd hm (List.not_mem_nil t)
  · intro c t hm
    exact absurd hm (List.not_mem_nil t)
  · intro c
    exact List.nodup_nil
  · intro cv hm
    exact absurd hm (List.not_mem_nil cv)
  · intro tv hm
    exact absurd hm (List.not_mem_nil tv)

theorem WF_run_aux (ops : List Op) :
    ∀ s : State, WF s → WF (run s ops) := by
  induction ops with
  | nil => intro s hwf; exact hwf
  | cons op rest ih =>
    intro s hwf
    exact ih (step s op) (WF_step s op hwf)

theorem WF_run (ops : List Op) : WF (run init ops) :=
  WF_run_aux ops init WF_init

theorem lookupA_map_values [DecidableEq α] (k : α) (f : β → γ)
    (l : List (α × β)) :
    lookupA k (l.map (fun kv => (kv.1, f kv.2))) = (lookupA k l).map f := by
  induction l with
  | nil => rfl
  | cons kv l ih =>
    by_cases h : kv.1 = k <;> simp [lookupA, h, ih]

theorem misc_cleanupTransport (s : State) (tid : Nat) :
    (cleanupTransport s tid).clients = s.clients ∧
    (cleanupTransport s tid).rooms = s.rooms ∧
    (cleanupTransport s tid).events = s.events ∧
    (cleanupTransport s tid).clientsByClientId = s.clientsByClientId := by
  cases hl : lookupA tid s.transports with
  | none =>
    rw [cleanupTransport_not_found s tid hl]
    exact ⟨rfl, rfl, rfl, rfl⟩
  | some info =>
    rw [cleanupTransport_of_lookup s tid info hl]
    exact ⟨rfl, rfl, rfl, rfl⟩

theorem misc_foldl_cleanup (ts : List Nat) :
    ∀ s : State, (ts.foldl cleanupTransport s).clients = s.clients ∧
      (ts.foldl cleanupTransport s).rooms = s.rooms ∧
      (ts.foldl cleanupTransport s).events = s.events ∧
      (ts.foldl cleanupTransport s).clientsByClientId =
        s.clientsByClientId := by
  induction ts with
  | nil => intro s; exact ⟨rfl, rfl, rfl, rfl⟩
  | cons t ts ih =>
    intro s
    obtain ⟨h1, h2, h3, h4⟩ := ih (cleanupTransport s t)
    obtain ⟨g1, g2, g3, g4⟩ := misc_cleanupTransport s t
    exact ⟨h1.trans g1, h2.trans g2, h3.trans g3, h4.trans g4⟩

theorem misc_cleanupClient (s : State) (cid : String) :
    (cleanupClient s cid).clients = s.clients ∧
    (cleanupClient s cid).rooms = s.rooms ∧
    (cleanupClient s cid).events = s.events := by
  obtain ⟨h1, h2, h3, _⟩ := misc_foldl_cleanup (ctList s cid) s
  exact ⟨h1, h2, h3⟩

/-- Core of the disconnect cascade: folding cleanupTransport over the
client's transport-id snapshot empties the client's index. -/
theorem fold_cleanup_core (ts : List Nat) : ∀ (s : State) (cid : String),
    WF s → ctList s cid = ts →
    ctList (ts.foldl cleanupTransport s) cid = [] := by
  induction ts with
  | nil =>
    intro s cid _ hct
    exact hct
  | cons t rest ih =>
    intro s cid hwf hct
    have hmem : t ∈ ctList s cid := by
      rw [hct]
      exact List.mem_cons_self t rest
    obtain ⟨w0, w1, w2, w3, w4⟩ := hwf
    rcases w1 cid t hmem with ⟨info, hl, hcl⟩
    have hnd : (t :: rest).Nodup := hct ▸ w2 cid
    have hnotin : t ∉ rest := (List.nodup_cons.1 hnd).1
    have hstep : ctList (cleanupTransport s t) cid = rest := by
      have h2 := ctList_cleanupTransport_owner s t info hl
      rw [hcl] at h2
      rw [h2, hct]
      rw [show filterP (fun x => x ≠ t) (t :: rest) =
          filterP (fun x => x ≠ t) rest from by simp [filterP]]
      exact filterP_eq_self fun a ha he => hnotin (he ▸ ha)
    exact ih (cleanupTransport s t) cid
      (WF_cleanupTransport s t ⟨w0, w1, w2, w3, w4⟩) hstep

/-- Everything cleanupClient guarantees about the departing client under
the reachability invariant. -/
theorem cleanupClient_clean (s : State) (cid : String) (hwf : WF s) :
    ctList (cleanupClient s cid) cid = [] ∧
    (∀ tv ∈ (cleanupClient s cid).transports, tv.2.clientId ≠ cid) ∧
    (∀ pv ∈ (cleanupClient s cid).producers,
      pv.2.appDataClientId ≠ cid) ∧
    (∀ cv ∈ (cleanupClient s cid).consumers,
      cv.2.ownerClientId ≠ cid) := by
  have hwf1 : WF ((ctList s cid).foldl cleanupTransport s) :=
    WF_foldl_cleanup _ s hwf
  have hct0 : ctList ((ctList s cid).foldl cleanupTransport s) cid = [] :=
    fold_cleanup_core (ctList s cid) s cid hwf rfl
  have hctfin : ctList (cleanupClient s cid) cid = [] := by
    show (lookupA cid (cleanupClient s cid).clientTransports).getD [] = []
    have h2 : (cleanupClient s cid).clientTransports =
        ((ctList s cid).foldl cleanupTransport s).clientTransports := rfl
    rw [h2]
    exact hct0
  refine ⟨hctfin, ?_, ?_, ?_⟩
  · intro tv hm
    have hm2 : tv ∈ ((ctList s cid).foldl cleanupTransport s).transports :=
      hm
    intro he
    have h4 := hwf1.2.2.2.2 tv hm2
    rw [he, hct0] at h4
    exact absurd h4 (List.not_mem_nil _)
  · intro pv hm
    have hm2 : pv ∈ filterP (fun pv => pv.2.appDataClientId ≠ cid)
        ((ctList s cid).foldl cleanupTransport s).producers := hm
    exact filterP_prop
      (p := fun pv : Nat × Producer => pv.2.appDataClientId ≠ cid) hm2
  · intro cv hm
    have hm2 := consumers_cleanupClient_subset hm
    intro he
    have h3 := hwf1.2.2.2.1 cv hm2
    rw [he, hct0] at h3
    exact absurd h3 (List.not_mem_nil _)

/-- socket.io room removal at disconnect, as a named stage. -/
def dropRooms (s : State) (sock : Nat) : State :=
  { s with rooms :=
      s.rooms.map (fun rv => (rv.1, filterP (fun m => m ≠ sock) rv.2)) }

/-- The state handleDisconnect reaches just before its broadcast: rooms
dropped, mediasoup resources cleaned, both gateway indexes pruned. -/
def postCleanup (s : State) (sock : Nat) (ci : ClientInfo) : State :=
  let sA := cleanupClient (dropRooms s sock) ci.clientId
  { sA with
      clientsByClientId := eraseA ci.clientId sA.clientsByClientId,
      clients := eraseA sock sA.clients }

theorem roomMembers_dropRooms (s : State) (sock : Nat) (r : String) :
    roomMembers (dropRooms s sock) r =
      filterP (fun m => m ≠ sock) (roomMembers s r) := by
  show (lookupA r (s.rooms.map
      (fun rv => (rv.1, filterP (fun m => m ≠ sock) rv.2)))).getD [] =
    filterP (fun m => m ≠ sock) ((lookupA r s.rooms).getD [])
  rw [lookupA_map_values]
  cases lookupA r s.rooms <;> rfl

theorem handleDisconnect_of_joined (s : State) (sock : Nat)
    (ci : ClientInfo) (r : String)
    (hci : lookupA sock s.clients = some ci) (hcid : ci.clientId ≠ "")
    (hrm : ci.roomId = some r) :
    handleDisconnect s sock =
      { postCleanup s sock ci with
          events := (postCleanup s sock ci).events ++
            [Ev.clientDisconnected
              (roomMembers (postCleanup s sock ci) r) ci.clientId] } := by
  unfold handleDisconnect postCleanup dropRooms
  simp only []
  rw [hci]
  simp only [hrm]
  repeat rw [if_pos hcid]

theorem handleDisconnect_of_joined_noroom (s : State) (sock : Nat)
    (ci : ClientInfo)
    (hci : lookupA sock s.clients = some ci) (hcid : ci.clientId ≠ "")
    (hrm : ci.roomId = none) :
    handleDisconnect s sock = postCleanup s sock ci := by
  unfold handleDisconnect postCleanup dropRooms
  simp only []
  rw [hci]
  simp only [hrm]
  repeat rw [if_pos hcid]

theorem getClientTransports_nil {s : State} {c : String}
    (h : ctList s c = []) : getClientTransports s c = [] := by
  unfold getClientTransports
  rw [h]
  rfl

/-- The disconnect cascade, for any state satisfying the reachability
invariant. -/
theorem disconnect_cascade_of_WF (s : State) (sock : Nat)
    (ci : ClientInfo) (hwf : WF s)
    (hci : lookupA sock s.clients = some ci) (hcid : ci.clientId ≠ "") :
    ctList (handleDisconnect s sock) ci.clientId = [] ∧
    getClientTransports (handleDisconnect s sock) ci.clientId = [] ∧
    (∀ tv ∈ (handleDisconnect s sock).transports,
      tv.2.clientId ≠ ci.clientId) ∧
    (∀ pv ∈ (handleDisconnect s sock).producers,
      pv.2.appDataClientId ≠ ci.clientId) ∧
    (∀ cv ∈ (handleDisconnect s sock).consumers,
      cv.2.ownerClientId ≠ ci.clientId) ∧
    (∀ r, ci.roomId = some r →
      (handleDisconnect s sock).events = s.events ++
        [Ev.clientDisconnected
          (filterP (fun m => m ≠ sock) (roomMembers s r)) ci.clientId]) := by
  have hwf0 : WF (dropRooms s sock) :=
    WF_of_fields rfl (fun cv h => h) rfl (Nat.le_refl _) hwf
  have hclean := cleanupClient_clean (dropRooms s sock) ci.clientId hwf0
  have hpc_ct : ctList (postCleanup s sock ci) ci.clientId = [] :=
    hclean.1
  have hpc_tv : ∀ tv ∈ (postCleanup s sock ci).transports,
      tv.2.clientId ≠ ci.clientId := fun tv hm => hclean.2.1 tv hm
  have hpc_pv : ∀ pv ∈ (postCleanup s sock ci).producers,
      pv.2.appDataClientId ≠ ci.clientId := fun pv hm =>
    hclean.2.2.1 pv hm
  have hpc_cv : ∀ cv ∈ (postCleanup s sock ci).consumers,
      cv.2.ownerClientId ≠ ci.clientId := fun cv hm =>
    hclean.2.2.2 cv hm
  have hpc_ev : (postCleanup s sock ci).events = s.events :=
    ((misc_cleanupClient (dropRooms s sock) ci.clientId).2.2).trans rfl
  have hpc_rooms : (postCleanup s sock ci).rooms =
      (dropRooms s sock).rooms :=
    (misc_cleanupClient (dropRooms s sock) ci.clientId).2.1
  have hpc_rm : ∀ r, roomMembers (postCleanup s sock ci) r =
      filterP (fun m => m ≠ sock) (roomMembers s r) := by
    intro r
    show (lookupA r (postCleanup s sock ci).rooms).getD [] = _
    rw [hpc_rooms]
    exact roomMembers_dropRooms s sock r
  cases hrm : ci.roomId with
  | some r0 =>
    have hred := handleDisconnect_of_joined s sock ci r0 hci hcid hrm
    rw [hred]
    refine ⟨hpc_ct, getClientTransports_nil hpc_ct, hpc_tv, hpc_pv,
      hpc_cv, ?_⟩
    intro r hr
    injection hr with hr2
    show (postCleanup s sock ci).events ++
      [Ev.clientDisconnected (roomMembers (postCleanup s sock ci) r0)
        ci.clientId] = _
    rw [hpc_ev, hpc_rm r0, hr2]
  | none =>
    have hred := handleDisconnect_of_joined_noroom s sock ci hci hcid hrm
    rw [hred]
    refine ⟨hpc_ct, getClientTransports_nil hpc_ct, hpc_tv, hpc_pv,
      hpc_cv, ?_⟩
    intro r hr
    exact Option.noConfusion hr

/-- C7: after a joined client's connection closes, the registries hold no
transport owned by that client (and its per-client transport index is
empty), no producer whose appData owner is that client, and no consumer
whose owning transport belonged to it; and when the session had joined a
room, exactly one clientDisconnected event is appended, delivered to every
remaining member of that room. -/
theorem c7_disconnect_cascade (ops : List Op) (sock : Nat)
    (ci : ClientInfo)
    (hci : lookupA sock (run init ops).clients = some ci)
    (hcid : ci.clientId ≠ "") :
    ctList (handleDisconnect (run init ops) sock) ci.clientId = [] ∧
    getClientTransports (handleDisconnect (run init ops) sock)
      ci.clientId = [] ∧
    (∀ tv ∈ (handleDisconnect (run init ops) sock).transports,
      tv.2.clientId ≠ ci.clientId) ∧
    (∀ pv ∈ (handleDisconnect (run init ops) sock).producers,
      pv.2.appDataClientId ≠ ci.clientId) ∧
    (∀ cv ∈ (handleDisconnect (run init ops) sock).consumers,
      cv.2.ownerClientId ≠ ci.clientId) ∧
    (∀ r, ci.roomId = some r →
      (handleDisconnect (run init ops) sock).events =
        (run init ops).events ++
        [Ev.clientDisconnected
          (filterP (fun m => m ≠ sock)
            (roomMembers (run init ops) r)) ci.clientId]) :=
  disconnect_cascade_of_WF (run init ops) sock ci (WF_run ops) hci hcid

/-- Trace for the C7 witness: A and B join room r. -/
def c7wTrace : List Op :=
  [.connect 0, .joinRoom 0 "r" "A", .connect 1, .joinRoom 1 "r" "B"]

/-- C7 witness: disconnecting A leaves no A-owned resources and the
clientDisconnected broadcast reaches exactly the other member. -/
theorem c7_witness :
    ctList (handleDisconnect (run init c7wTrace) 0) "A" = [] ∧
    (∀ cv ∈ (handleDisconnect (run init c7wTrace) 0).consumers,
      cv.2.ownerClientId ≠ "A") ∧
    (handleDisconnect (run init c7wTrace) 0).events =
      (run init c7wTrace).events ++
      [Ev.clientDisconnected
        (filterP (fun m => m ≠ 0) (roomMembers (run init c7wTrace) "r"))
        "A"] := by
  have h := c7_disconnect_cascade c7wTrace 0
    { clientId := "A", roomId := some "r", sendTransportId := none,
      recvTransportId := none } rfl (by decide)
  exact ⟨h.1, h.2.2.2.2.1, h.2.2.2.2.2 "r" rfl⟩

/-- C3 witness: a freshly connected socket joining room r as client A gets
the join payload characterized by the theorem, applied at a concrete
state. -/
theorem c3_witness :
    (handleJoinRoom (run init [Op.connect 0]) 0 "r" "A").2 =
      Ack.joined (getProducerList (run init [Op.connect 0]) "A").length ∧
    (∃ recips,
      (handleJoinRoom (run init [Op.connect 0]) 0 "r" "A").1.events =
        (run init [Op.connect 0]).events ++
          [Ev.existingProducers 0
            (getProducerList (run init [Op.connect 0]) "A"),
           Ev.clientJoined recips "A"]) ∧
    (∀ v, v ∈ getProducerList (run init [Op.connect 0]) "A" ↔
      ∃ pv, pv ∈ (run init [Op.connect 0]).producers ∧
        pv.2.appDataClientId ≠ "A" ∧ pv.2.closed = false ∧
        v = viewOf pv) :=
  c3_joinRoom_existing_producers (run init [Op.connect 0]) 0 "r" "A"
    { clientId := "", roomId := none, sendTransportId := none,
      recvTransportId := none } (by decide) (by decide) rfl

/-- Trace for the C4 witness: A joins, produces video on a connected send
transport; B joins and connects a recv transport. -/
def c4wTrace : List Op :=
  [.connect 0, .joinRoom 0 "r" "A",
   .createTransport 0 "send",
   .connectTransport 0 (some 0) true,
   .produce 0 { transportId := some 0, kind := "video",
                rtpParameters := true, appData := none },
   .connect 1, .joinRoom 1 "r" "B",
   .createTransport 1 "recv",
   .connectTransport 1 (some 2) true]

/-- The consume request of the C4 witness. -/
def c4wReq : ConsumeReq :=
  { transportId := some 2, producerId := some 1,
    rtpCapabilities := true, canConsume := true }

/-- C4 witness: B consumes the A video producer through the recv transport;
the ack carries the fresh consumer id, the requested producer id and the
producer kind, and the registered consumer is unpaused. -/
theorem c4_witness :
    (handleConsume (run init c4wTrace) 1 c4wReq).2 =
      Ack.consumed 3 1 "video" ∧
    lookupA 3 (handleConsume (run init c4wTrace) 1 c4wReq).1.consumers =
      some { transportId := 2, producerId := 1, kind := "video",
             paused := false, ownerClientId := "B",
             appDataClientId := none, closed := false } :=
  c4_consume_success (run init c4wTrace) 1 c4wReq
    { clientId := "B", roomId := some "r", sendTransportId := none,
      recvTransportId := some 2 } 2 1
    { clientId := "B", ttype := TType.recv, connected := true,
      closed := false, createdAt := 0 }
    { transportId := 0, kind := "video", appDataClientId := "A",
      appDataSource := none, closed := false }
    rfl (by decide) rfl rfl rfl rfl rfl rfl rfl rfl rfl rfl rfl

end SS
